import Mathlib

/-!
Shallow embedding of the MiniMart-MS synthetic-data generator scripts
(`scripts/generate_history_v2.py`, `scripts/generate_history_v3.py`,
`scripts/generate_suppliers.py`), together with proofs about the claims
of the specification.

Modelling conventions, used throughout:

* Python floats are modelled as rationals (`Rat`).  `round(x, n)` is
  modelled by `pyRound n` (round half to even, as Python's `round`),
  `int(x)` by `pytrunc` (truncation toward zero).
* `datetime` values are modelled by the `Date` structure carrying exactly
  the fields the scripts read: the calendar fields, the weekday
  (`datetime.weekday()`, Monday = 0) and the proleptic Gregorian ordinal
  (`datetime.toordinal()`).  Date comparison and date subtraction in the
  scripts go through the ordinal.
* The global `random` generator is modelled by an explicit oracle (`RNG`),
  a pair of streams of integers and rationals.  `random.randint a b` maps
  an oracle integer into `[a, b]`, `random.uniform a b` clamps an oracle
  rational into `[a, b]`, `random.choice l` indexes `l` by an oracle
  integer modulo the length, `random.random()` reads a raw oracle
  rational, and the weighted `random.choices` is modelled like
  `random.choice` (the weights shape the distribution but not the set of
  possible outcomes).  `random.shuffle`, which in the scripts is always
  followed by oracle-indexed `random.choice` over the same list, is
  modelled as the identity: it permutes a pool that is afterwards sampled
  by a free oracle index, so it does not change the set of reachable
  outcomes.
* Python's `ZeroDivisionError` on `/` is modelled by the partial division
  `qdiv?` returning `none` on a zero divisor.
-/

namespace MiniMart

/-- Python `int(x)` conversion: truncation toward zero. -/
def pytrunc (q : Rat) : Int := if 0 ≤ q then ⌊q⌋ else -⌊-q⌋

/-- Rounding of a rational to the nearest integer, half to even (the
tie-breaking Python's `round` uses). -/
def pyRoundInt (s : Rat) : Int :=
  if s - (⌊s⌋ : Rat) < 1/2 then ⌊s⌋
  else if 1/2 < s - (⌊s⌋ : Rat) then ⌊s⌋ + 1
  else if ⌊s⌋ % 2 = 0 then ⌊s⌋ else ⌊s⌋ + 1

/-- Python `round(x, ndigits)`: round half to even at `ndigits` decimal
digits, on the idealized rational value. -/
def pyRound (ndigits : Nat) (q : Rat) : Rat :=
  (pyRoundInt (q * 10 ^ ndigits) : Rat) / 10 ^ ndigits

/-- Python `a / b` on numbers: raises `ZeroDivisionError` when `b = 0`,
modelled by `none`. -/
def qdiv? (a b : Rat) : Option Rat := if b = 0 then none else some (a / b)

/-- The `random.randint a b` driven by the oracle integer `n`: an arbitrary
value of `[a, b]` (every value is reached as `n` varies). -/
def randint (a b n : Int) : Int := a + n % (b - a + 1)

/-- The `random.uniform a b` driven by the oracle rational `x`: an arbitrary
value of `[a, b]`. -/
def uniformR (a b x : Rat) : Rat := max a (min b x)

/-- The `random.choice l` driven by the oracle integer `n`; `d` is a default
for the empty list (on which Python raises). -/
def choiceD {α : Type} (l : List α) (d : α) (n : Int) : α :=
  l.getD (n.natAbs % l.length) d

/-- Python list repetition `l * n`. -/
def listMul {α : Type} (l : List α) (n : Nat) : List α :=
  (List.replicate n l).flatten

/-- The oracle feeding the `random` module: a stream of integers (for
`randint`/`choice` draws) and a stream of rationals (for
`uniform`/`random()` draws). -/
structure RNG where
  ints : List Int
  rats : List Rat

/-- Draw the next oracle integer. -/
def RNG.ri (r : RNG) : Int × RNG := (r.ints.headD 0, ⟨r.ints.tail, r.rats⟩)

/-- Draw the next oracle rational. -/
def RNG.rq (r : RNG) : Rat × RNG := (r.rats.headD 0, ⟨r.ints, r.rats.tail⟩)

/-- Model of a `datetime`: the fields the scripts read.  `weekday` is
`datetime.weekday()` (Monday = 0) and `ord` is `datetime.toordinal()`;
datetime comparison and subtraction in the scripts are modelled through
`ord`. -/
structure Date where
  year : Nat
  month : Nat
  day : Nat
  weekday : Nat
  ord : Int
deriving DecidableEq

/-- The `datetime(2024, 1, 1).toordinal()`. -/
def START_ORD : Int := 738886

/-- The `START_DATE = datetime(2024, 1, 1)` (a Monday). -/
def START_DATE : Date := ⟨2024, 1, 1, 0, START_ORD⟩

/-- The numeric content of `date.strftime("%Y%m%d")`: for the dates the
scripts iterate the rendered string is the fixed-width decimal form of
this number, so it is injective in `(year, month, day)`. -/
def dayKey (d : Date) : Nat := d.year * 10000 + d.month * 100 + d.day

/-- Gregorian leap year. -/
def isLeap (y : Nat) : Bool := (y % 4 = 0 && y % 100 ≠ 0) || y % 400 = 0

/-- Number of days of month `m` of year `y`. -/
def daysInMonth (y m : Nat) : Nat :=
  if m = 2 then (if isLeap y then 29 else 28)
  else if m = 4 ∨ m = 6 ∨ m = 9 ∨ m = 11 then 30
  else 31

/-- The `current_date + timedelta(days=1)` on the `Date` model. -/
def nextDay (d : Date) : Date :=
  let w := (d.weekday + 1) % 7
  if d.day < daysInMonth d.year d.month then ⟨d.year, d.month, d.day + 1, w, d.ord + 1⟩
  else if d.month < 12 then ⟨d.year, d.month + 1, 1, w, d.ord + 1⟩
  else ⟨d.year + 1, 1, 1, w, d.ord + 1⟩

end MiniMart

namespace MiniMart.V2

/-- A `PRODUCTS` catalog entry of `generate_history_v2.py` (the v2 claims
quantify over arbitrary products, so the concrete catalog is not
needed). -/
structure Product where
  barcode : String
  name : String
  brand : String
  category : String
  retail_price : Rat
  cost_price : Rat
deriving DecidableEq

/-- The `BrandCampaign` dataclass of v2; the datetimes are carried as
ordinals. -/
structure BrandCampaign where
  name : String
  brand : String
  start_ord : Int
  end_ord : Int
  multiplier : Rat
deriving DecidableEq

/-- The `StorePromo` dataclass of v2. -/
structure StorePromo where
  name : String
  product_barcodes : List String
  start_ord : Int
  end_ord : Int
  multiplier : Rat
deriving DecidableEq

/-- The `Holiday` dataclass of v2; `date_ord` is the ordinal of the `date`
field. -/
structure Holiday where
  name : String
  date_ord : Int
  duration_days : Int
  multiplier : Rat
deriving DecidableEq

/-- The `PAYMENT_METHODS` of v2. -/
def PAYMENT_METHODS : List String :=
  ["CASH", "CASH", "CASH", "CASH", "CASH", "CASH", "CASH", "GCASH", "GCASH", "GCASH"]

/-- The `get_seasonality_multiplier` of v2. -/
def get_seasonality_multiplier (d : Date) (category : String) : Rat :=
  if d.month = 12 then 1.5
  else if d.month = 11 then 1.2
  else if (d.month = 4 ∨ d.month = 5) ∧ category ∈ ["BEVERAGES", "SODA"] then 1.4
  else if d.month = 3 ∨ d.month = 4 then 1.1
  else if d.month = 8 then 1.15
  else 1.0

/-- The `get_day_of_week_multiplier` of v2. -/
def get_day_of_week_multiplier (d : Date) : Rat :=
  if d.weekday = 5 then 1.3
  else if d.weekday = 6 then 1.25
  else if d.weekday = 4 then 1.15
  else 1.0

/-- The `is_within_campaign` of v2: the first campaign of the matching brand
whose range contains the date (`(True, campaign)` is `some campaign`,
`(False, None)` is `none`). -/
def is_within_campaign (d : Date) (campaigns : List BrandCampaign) (brand : String) :
    Option BrandCampaign :=
  campaigns.find? (fun c =>
    c.brand == brand && decide (c.start_ord ≤ d.ord) && decide (d.ord ≤ c.end_ord))

/-- The `is_within_store_promo` of v2. -/
def is_within_store_promo (d : Date) (promos : List StorePromo) (barcode : String) :
    Option StorePromo :=
  promos.find? (fun p =>
    p.product_barcodes.contains barcode &&
    decide (p.start_ord ≤ d.ord) && decide (d.ord ≤ p.end_ord))

/-- The `is_within_holiday` of v2 (the holiday window is
`[date, date + duration_days]`, both ends included). -/
def is_within_holiday (d : Date) (holidays : List Holiday) : Option Holiday :=
  holidays.find? (fun h =>
    decide (h.date_ord ≤ d.ord) && decide (d.ord ≤ h.date_ord + h.duration_days))

/-- The multiplier of the active campaign, `1` when none is active. -/
def campaign_mult (d : Date) (campaigns : List BrandCampaign) (brand : String) : Rat :=
  match is_within_campaign d campaigns brand with
  | some c => c.multiplier
  | none => 1

/-- The multiplier of the active store promo, `1` when none is active. -/
def promo_mult (d : Date) (promos : List StorePromo) (barcode : String) : Rat :=
  match is_within_store_promo d promos barcode with
  | some p => p.multiplier
  | none => 1

/-- The multiplier of the active holiday, `1` when none is active. -/
def holiday_mult (d : Date) (holidays : List Holiday) : Rat :=
  match is_within_holiday d holidays with
  | some h => h.multiplier
  | none => 1

/-- One row of the v2 sales CSV (the dict built by
`generate_daily_sales`). -/
structure SaleRecord where
  date : Date
  barcode : String
  product_name : String
  brand : String
  category : String
  quantity : Int
  retail_price : Rat
  cost_price : Rat
  subtotal : Rat
  cost_total : Rat
  profit : Rat
  payment_method : String
  is_event : Bool
  event_source : String
  event_name : String
  seasonality_multiplier : Rat
  total_multiplier : Rat
deriving DecidableEq

/-- The `generate_daily_sales` of v2.  The seeded `random.randint(5, 15)`
base-velocity draw and the noise and payment draws are oracle draws, in
the order the source makes them. -/
def generate_daily_sales (d : Date) (product : Product)
    (campaigns : List BrandCampaign) (promos : List StorePromo)
    (holidays : List Holiday) (rng : RNG) : SaleRecord × RNG :=
  let (nv, rng) := rng.ri
  let base_velocity : Int := randint 5 15 nv
  let seasonality_mult := get_seasonality_multiplier d product.category
  let m1 : Rat := 1.0 * seasonality_mult
  let dow_mult := get_day_of_week_multiplier d
  let m2 := m1 * dow_mult
  let c? := is_within_campaign d campaigns product.brand
  let m3 := match c? with
    | some c => m2 * c.multiplier
    | none => m2
  let st1 : Bool × String × String := match c? with
    | some c => (true, "MANUFACTURER_CAMPAIGN", c.name)
    | none => (false, "", "")
  let p? := is_within_store_promo d promos product.barcode
  let m4 := match p? with
    | some p => m3 * p.multiplier
    | none => m3
  let st2 : Bool × String × String := match p? with
    | some p => (true, if st1.2.1 = "" then "STORE_DISCOUNT" else st1.2.1,
                 if st1.2.1 = "" then p.name else st1.2.2)
    | none => st1
  let h? := is_within_holiday d holidays
  let m5 := match h? with
    | some h => m4 * h.multiplier
    | none => m4
  let st3 : Bool × String × String := match h? with
    | some h => if st2.2.1 = "" then (true, "HOLIDAY", h.name) else st2
    | none => st2
  let q0 : Int := pytrunc ((base_velocity : Rat) * m5)
  let (nn, rng) := rng.ri
  let noise := randint (-2) 2 nn
  let quantity : Int := max 1 (q0 + noise)
  let subtotal := pyRound 2 ((quantity : Rat) * product.retail_price)
  let cost_total := pyRound 2 ((quantity : Rat) * product.cost_price)
  let profit := pyRound 2 (subtotal - cost_total)
  let (np, rng) := rng.ri
  let payment_method := choiceD PAYMENT_METHODS "CASH" np
  ({ date := d
     barcode := product.barcode
     product_name := product.name
     brand := product.brand
     category := product.category
     quantity := quantity
     retail_price := product.retail_price
     cost_price := product.cost_price
     subtotal := subtotal
     cost_total := cost_total
     profit := profit
     payment_method := payment_method
     is_event := st3.1
     event_source := st3.2.1
     event_name := st3.2.2
     seasonality_multiplier := pyRound 2 seasonality_mult
     total_multiplier := pyRound 2 m5 }, rng)

/-- The `total_revenue = sum(s["subtotal"] for s in sales)` in
`print_summary_stats` of v2. -/
def total_revenue (sales : List SaleRecord) : Rat := (sales.map (·.subtotal)).sum

/-- The `total_cost` in `print_summary_stats` of v2. -/
def total_cost (sales : List SaleRecord) : Rat := (sales.map (·.cost_total)).sum

/-- The `total_profit` in `print_summary_stats` of v2. -/
def total_profit (sales : List SaleRecord) : Rat := (sales.map (·.profit)).sum

/-- The profit-margin computation `(total_profit/total_revenue)*100` of
v2's `print_summary_stats` (line 519): the division is not guarded. -/
def profit_margin_pct (sales : List SaleRecord) : Option Rat :=
  (qdiv? (total_profit sales) (total_revenue sales)).map (fun m => m * 100)

end MiniMart.V2

namespace MiniMart.V3

/-- A `PRODUCTS` catalog entry of `generate_history_v3.py`; the optional
dict keys `wholesale_only`, `never_sell` and `hero_boost` default to
`false`, `false` and `1` (the defaults `dict.get` supplies). -/
structure Product where
  barcode : String
  name : String
  brand : String
  category : String
  base_retail : Rat
  base_cost : Rat
  wholesale_only : Bool := false
  never_sell : Bool := false
  hero_boost : Rat := 1
deriving DecidableEq

/-- The `PRODUCTS` catalog of v3. -/
def PRODUCTS : List Product := [
  { barcode := "544900000099", name := "Coca-Cola Mismo 295ml", brand := "Coca-Cola", category := "SODA", base_retail := 20.00, base_cost := 18.00 },
  { barcode := "480198112005", name := "Sprite 500ml", brand := "Coca-Cola", category := "SODA", base_retail := 25.00, base_cost := 22.50 },
  { barcode := "480198112010", name := "Royal Tru Orange 500ml", brand := "Coca-Cola", category := "SODA", base_retail := 25.00, base_cost := 22.50 },
  { barcode := "480198112000", name := "Coke 500ml", brand := "Coca-Cola", category := "SODA", base_retail := 25.00, base_cost := 22.50 },
  { barcode := "480392525114", name := "Mountain Dew 500ml", brand := "Pepsi", category := "SODA", base_retail := 22.00, base_cost := 20.00 },
  { barcode := "480392525110", name := "Pepsi 500ml", brand := "Pepsi", category := "SODA", base_retail := 22.00, base_cost := 20.00 },
  { barcode := "480198111607", name := "Coke 1.5L", brand := "Coca-Cola", category := "SODA", base_retail := 60.00, base_cost := 54.00 },
  { barcode := "480198118062", name := "Sprite 1.5L", brand := "Coca-Cola", category := "SODA", base_retail := 60.00, base_cost := 54.00 },
  { barcode := "480191198062", name := "Royal Tru Orange 1.5L", brand := "Coca-Cola", category := "SODA", base_retail := 60.00, base_cost := 54.00 },
  { barcode := "480392515114", name := "Mountain Dew 1.5L", brand := "Pepsi", category := "SODA", base_retail := 55.00, base_cost := 50.00 },
  { barcode := "480392515110", name := "Pepsi 1.5L", brand := "Pepsi", category := "SODA", base_retail := 55.00, base_cost := 50.00 },
  { barcode := "480198111664", name := "Coke Zero 1.5L", brand := "Coca-Cola", category := "SODA", base_retail := 60.00, base_cost := 54.00 },
  { barcode := "480392515112", name := "7-up 1.5L", brand := "Pepsi", category := "SODA", base_retail := 55.00, base_cost := 50.00 },
  { barcode := "480198109722", name := "Royal Tru Strawberry 1.5L", brand := "Coca-Cola", category := "SODA", base_retail := 60.00, base_cost := 54.00 },
  { barcode := "480392515116", name := "Mirinda Orange 1.5L", brand := "Pepsi", category := "SODA", base_retail := 60.00, base_cost := 54.00 },
  { barcode := "480198111696", name := "Coke Light 1.5L", brand := "Coca-Cola", category := "SODA", base_retail := 65.00, base_cost := 58.50 },
  { barcode := "480198112717", name := "Coke Swakto 195ml (1 Case)", brand := "Coca-Cola", category := "SOFTDRINKS_CASE", base_retail := 125.00, base_cost := 112.00, wholesale_only := true },
  { barcode := "480198112720", name := "Royal Swakto 195ml (1 Case)", brand := "Coca-Cola", category := "SOFTDRINKS_CASE", base_retail := 125.00, base_cost := 112.00, wholesale_only := true },
  { barcode := "480198102719", name := "Sprite Swakto 195ml (1 Case)", brand := "Coca-Cola", category := "SOFTDRINKS_CASE", base_retail := 125.00, base_cost := 112.00, wholesale_only := true },
  { barcode := "480392513032", name := "Mountain Dew 290ml (1 Case)", brand := "Pepsi", category := "SOFTDRINKS_CASE", base_retail := 200.00, base_cost := 180.00, wholesale_only := true },
  { barcode := "480374937310", name := "Coke 1L (1 Case)", brand := "Coca-Cola", category := "SOFTDRINKS_CASE", base_retail := 350.00, base_cost := 315.00, wholesale_only := true },
  { barcode := "480611352020", name := "Juicy Lemon 237 ml (1 Bundle)", brand := "Coca-Cola", category := "SOFTDRINKS_CASE", base_retail := 141.00, base_cost := 127.00, wholesale_only := true },
  { barcode := "480732471900", name := "Sprite 1L (1 Case)", brand := "Coca-Cola", category := "SOFTDRINKS_CASE", base_retail := 350.00, base_cost := 315.00, wholesale_only := true },
  { barcode := "542353276241", name := "Royal 1L (1 Case)", brand := "Coca-Cola", category := "SOFTDRINKS_CASE", base_retail := 350.00, base_cost := 315.00, wholesale_only := true },
  { barcode := "955600121722", name := "Milo 22g Sachet", brand := "Nestle", category := "BEVERAGES", base_retail := 12.00, base_cost := 10.50 },
  { barcode := "480036141081", name := "Nestle Bear Brand Fortified 33g", brand := "Nestle", category := "BEVERAGES", base_retail := 11.50, base_cost := 10.00 },
  { barcode := "480864731007", name := "Tang Orange 250g", brand := "Tang", category := "BEVERAGES", base_retail := 216.00, base_cost := 195.00 },
  { barcode := "965412919731", name := "Energen Cereal Milk Chocolate Drink 40g", brand := "Energen", category := "BEVERAGES", base_retail := 9.00, base_cost := 8.00 },
  { barcode := "965412919613", name := "Energen Cereal Drink Mix Vanilla Hanger 40g", brand := "Energen", category := "BEVERAGES", base_retail := 8.60, base_cost := 7.50 },
  { barcode := "489120804013", name := "Oishi Prawn Crackers 60g", brand := "Oishi", category := "SNACK", base_retail := 17.60, base_cost := 15.50 },
  { barcode := "893921341445", name := "San Sky Flakes Crackers Original 25g x 10s", brand := "M.Y. San", category := "SNACK", base_retail := 58.40, base_cost := 52.50 },
  { barcode := "893951811445", name := "Hansel Mocha Sandwich", brand := "Rebisco", category := "SNACK", base_retail := 60.20, base_cost := 54.00 },
  { barcode := "748485200019", name := "555 Sardines in Tomato Sauce 155g", brand := "555", category := "CANNED_GOODS", base_retail := 25.00, base_cost := 22.00 },
  { barcode := "748485800035", name := "Argentina Corned Beef 260g", brand := "Argentina", category := "CANNED_GOODS", base_retail := 57.50, base_cost := 52.00 },
  { barcode := "480002201028", name := "Hunts Pork & Beans 100g Doy", brand := "Hunts", category := "CANNED_GOODS", base_retail := 14.50, base_cost := 13.00 },
  { barcode := "480057511015", name := "Alaska Classic Evaporated Filled Milk 140ml", brand := "Alaska", category := "DAIRY", base_retail := 28.20, base_cost := 25.50 },
  { barcode := "480057513016", name := "Alaska Condensada Sweetened Condensed Creamer 168ml", brand := "Alaska", category := "DAIRY", base_retail := 39.00, base_cost := 35.00 },
  { barcode := "480864702009", name := "Eden Cheese 165g", brand := "Mondelez", category := "DAIRY", base_retail := 78.00, base_cost := 70.00 },
  { barcode := "480535824701", name := "Dari Creme Butter Milk 100g", brand := "Dari Creme", category := "DAIRY", base_retail := 41.00, base_cost := 37.00 },
  { barcode := "000008586780", name := "Datu Puti Patis 1L", brand := "Datu Puti", category := "CONDIMENTS", base_retail := 80.85, base_cost := 73.00 },
  { barcode := "642611907726", name := "Ajinomoto Seasoning Mix 50g", brand := "Ajinomoto", category := "CONDIMENTS", base_retail := 13.00, base_cost := 11.50 },
  { barcode := "642647382226", name := "Sisters Night Plus Cottony Napkin", brand := "Sisters", category := "PERSONAL_CARE", base_retail := 44.50, base_cost := 40.00 },
  { barcode := "642321541122", name := "Sisters Overnight Dry", brand := "Sisters", category := "PERSONAL_CARE", base_retail := 117.00, base_cost := 105.00 },
  { barcode := "672329634182", name := "Whisper Cottony Soft Clean X-Long Overnight", brand := "Whisper", category := "PERSONAL_CARE", base_retail := 128.00, base_cost := 115.00 },
  { barcode := "480088814685", name := "Sunsilk Strong & Long 350ml", brand := "Sunsilk", category := "PERSONAL_CARE", base_retail := 150.00, base_cost := 135.00 },
  { barcode := "870021639476", name := "Downy Sunrise Fresh Fabric Conditioner Sachet 20ml", brand := "Downy", category := "HOUSEHOLD", base_retail := 7.00, base_cost := 6.00 },
  { barcode := "480004784003", name := "Zonrox Original Bleach 250ml", brand := "Zonrox", category := "HOUSEHOLD", base_retail := 38.00, base_cost := 34.00 },
  { barcode := "037000359562", name := "Ariel With a Touch of Downy Freshness Powder", brand := "Ariel", category := "HOUSEHOLD", base_retail := 660.00, base_cost := 595.00 },
  { barcode := "490243086729", name := "Joy Dishwashing Liquid Lemon 475ml", brand := "Joy", category := "HOUSEHOLD", base_retail := 134.00, base_cost := 120.00 },
  { barcode := "490243078997", name := "Joy Dishwashing Liquid Lemon Sachet 40ml", brand := "Joy", category := "HOUSEHOLD", base_retail := 12.00, base_cost := 10.50 },
  { barcode := "480004210014", name := "UFC Premium Banana Ketchup 320g", brand := "UFC", category := "DEAD_STOCK", base_retail := 65.00, base_cost := 58.00, never_sell := true },
  { barcode := "489310100015", name := "Lucky Me Pancit Canton with Kalamnsi 60g", brand := "Lucky Me", category := "INSTANT_NOODLES", base_retail := 12.50, base_cost := 11.00, hero_boost := 3.0 }]

/-- The keys of the `CUSTOMER_PROFILES` dict. -/
inductive Profile
  | SNACKER
  | HOUSEHOLD
  | VENDOR
deriving DecidableEq

/-- One value of the `CUSTOMER_PROFILES` dict. -/
structure ProfileCfg where
  weight : Rat
  items_lo : Int
  items_hi : Int
  ticket_lo : Rat
  ticket_hi : Rat
  qty_lo : Int
  qty_hi : Int
deriving DecidableEq

/-- The `CUSTOMER_PROFILES` dict of v3 (a total map on its three keys). -/
def CUSTOMER_PROFILES : Profile → ProfileCfg
  | .SNACKER => ⟨0.70, 1, 2, 15, 150, 1, 1⟩
  | .HOUSEHOLD => ⟨0.20, 3, 8, 300, 1500, 1, 2⟩
  | .VENDOR => ⟨0.10, 5, 15, 1500, 8000, 3, 12⟩

/-- The `ANNUAL_INFLATION_RATE` of v3. -/
def ANNUAL_INFLATION_RATE : Rat := 0.045

/-- The `BASE_DAILY_REVENUE_TARGET` of v3. -/
def BASE_DAILY_REVENUE_TARGET : Rat := 82500

/-- The `BASE_DAILY_TRANSACTIONS` of v3. -/
def BASE_DAILY_TRANSACTIONS : Int := 110

/-- The `PAYMENT_METHODS` of v3 (`["CASH"] * 7 + ["GCASH"] * 3`). -/
def PAYMENT_METHODS : List String :=
  ["CASH", "CASH", "CASH", "CASH", "CASH", "CASH", "CASH", "GCASH", "GCASH", "GCASH"]

/-- The `get_inflation_factor` of v3:
`1 + rate * ((date - START_DATE).days / 365.25)`. -/
def get_inflation_factor (d : Date) : Rat :=
  let days_from_start : Int := d.ord - START_ORD
  let years_from_start : Rat := (days_from_start : Rat) / 365.25
  1 + ANNUAL_INFLATION_RATE * years_from_start

/-- The `get_inflated_prices` of v3: inflation-adjusted retail and cost,
rounded to 2 decimal places. -/
def get_inflated_prices (p : Product) (d : Date) : Rat × Rat :=
  let factor := get_inflation_factor d
  (pyRound 2 (p.base_retail * factor), pyRound 2 (p.base_cost * factor))

/-- The `get_daily_revenue_target` of v3 (no rounding). -/
def get_daily_revenue_target (d : Date) : Rat :=
  BASE_DAILY_REVENUE_TARGET * get_inflation_factor d

/-- The `BrandCampaign` dataclass of v3. -/
structure BrandCampaign where
  name : String
  brand : String
  start_ord : Int
  end_ord : Int
  multiplier : Rat
deriving DecidableEq

/-- The `StorePromo` dataclass of v3. -/
structure StorePromo where
  name : String
  product_barcodes : List String
  start_ord : Int
  end_ord : Int
  multiplier : Rat
deriving DecidableEq

/-- The `Holiday` dataclass of v3. -/
structure Holiday where
  name : String
  date_ord : Int
  duration_days : Int
  multiplier : Rat
deriving DecidableEq

/-- The `get_seasonality_multiplier` of v3 (the summer list also contains
`SOFTDRINKS_CASE`, unlike v2). -/
def get_seasonality_multiplier (d : Date) (category : String) : Rat :=
  if d.month = 12 then 1.5
  else if d.month = 11 then 1.2
  else if (d.month = 4 ∨ d.month = 5) ∧ category ∈ ["BEVERAGES", "SODA", "SOFTDRINKS_CASE"] then 1.4
  else if d.month = 3 ∨ d.month = 4 then 1.1
  else if d.month = 8 then 1.15
  else 1.0

/-- The `get_payday_multiplier` of v3. -/
def get_payday_multiplier (d : Date) : Rat :=
  if d.day = 15 ∨ d.day = 30 ∨ d.day = 31 then 1.4
  else if d.day = 14 ∨ d.day = 16 ∨ d.day = 29 then 1.2
  else 1.0

/-- The `get_day_of_week_multiplier` of v3. -/
def get_day_of_week_multiplier (d : Date) : Rat :=
  if d.weekday = 5 then 1.3
  else if d.weekday = 6 then 1.25
  else if d.weekday = 4 then 1.15
  else 1.0

/-- The `is_within_campaign` of v3. -/
def is_within_campaign (d : Date) (campaigns : List BrandCampaign) (brand : String) :
    Option BrandCampaign :=
  campaigns.find? (fun c =>
    c.brand == brand && decide (c.start_ord ≤ d.ord) && decide (d.ord ≤ c.end_ord))

/-- The `is_within_store_promo` of v3. -/
def is_within_store_promo (d : Date) (promos : List StorePromo) (barcode : String) :
    Option StorePromo :=
  promos.find? (fun p =>
    p.product_barcodes.contains barcode &&
    decide (p.start_ord ≤ d.ord) && decide (d.ord ≤ p.end_ord))

/-- The `is_within_holiday` of v3. -/
def is_within_holiday (d : Date) (holidays : List Holiday) : Option Holiday :=
  holidays.find? (fun h =>
    decide (h.date_ord ≤ d.ord) && decide (d.ord ≤ h.date_ord + h.duration_days))

/-- The multiplier of the active holiday, `1` when none is active. -/
def holiday_mult (d : Date) (holidays : List Holiday) : Rat :=
  match is_within_holiday d holidays with
  | some h => h.multiplier
  | none => 1

/-- An element of the selection pools of `get_products_for_profile`:
a catalog product together with its inflated prices
(`{**p, "retail_price": retail, "cost_price": cost}`). -/
structure PoolItem where
  barcode : String
  name : String
  brand : String
  category : String
  wholesale_only : Bool
  never_sell : Bool
  hero_boost : Rat
  retail_price : Rat
  cost_price : Rat
deriving DecidableEq

/-- Build the pool entry of one product on one date. -/
def mkPoolItem (d : Date) (p : Product) : PoolItem :=
  let rc := get_inflated_prices p d
  ⟨p.barcode, p.name, p.brand, p.category, p.wholesale_only, p.never_sell,
   p.hero_boost, rc.1, rc.2⟩

/-- The catalog with inflated prices and the `never_sell` products
dropped (the `continue` of the pool-building loop). -/
def priced_products (d : Date) : List PoolItem :=
  (PRODUCTS.filter (fun p => !p.never_sell)).map (mkPoolItem d)

/-- The `product_pool`: the non-wholesale part of the priced catalog. -/
def product_pool (d : Date) : List PoolItem :=
  (priced_products d).filter (fun p => !p.wholesale_only)

/-- The `wholesale_pool`: the wholesale-only part of the priced catalog. -/
def wholesale_pool (d : Date) : List PoolItem :=
  (priced_products d).filter (fun p => p.wholesale_only)

/-- The `cheap_products`: retail price at most 30. -/
def cheap_products (d : Date) : List PoolItem :=
  (product_pool d).filter (fun p => decide (p.retail_price ≤ 30))

/-- The `mid_products`: retail price in `(30, 80]`. -/
def mid_products (d : Date) : List PoolItem :=
  (product_pool d).filter (fun p =>
    decide (30 < p.retail_price) && decide (p.retail_price ≤ 80))

/-- The `expensive_products`: retail price above 80. -/
def expensive_products (d : Date) : List PoolItem :=
  (product_pool d).filter (fun p => decide (80 < p.retail_price))

/-- The `weighted_pool`: each product once plus `int(hero_boost) - 1` extra
copies. -/
def weighted_pool (d : Date) : List PoolItem :=
  (product_pool d).flatMap (fun p =>
    p :: List.replicate ((pytrunc p.hero_boost) - 1).toNat p)

/-- The trailing hero additions to the selection pool: `int(hero_boost)`
extra copies of each product with `hero_boost > 1`. -/
def hero_extra (d : Date) : List PoolItem :=
  (product_pool d).flatMap (fun p =>
    if 1 < p.hero_boost then List.replicate (pytrunc p.hero_boost).toNat p else [])

/-- The per-profile `selection_pool` (with the hero additions appended;
`random.shuffle` is modelled as the identity, see the module comment). -/
def selection_pool (profile : Profile) (d : Date) : List PoolItem :=
  let base := match profile with
    | .SNACKER =>
        if cheap_products d ≠ [] then listMul (cheap_products d) 4 ++ mid_products d
        else weighted_pool d
    | .HOUSEHOLD =>
        listMul (cheap_products d) 2 ++ listMul (mid_products d) 2 ++ expensive_products d
    | .VENDOR => weighted_pool d ++ listMul (wholesale_pool d) 3
  base ++ hero_extra d

/-- A member of `selected_items`:
`{**product, "quantity": qty, "subtotal": ..., "cost_total": ...}`. -/
structure BasketItem extends PoolItem where
  quantity : Int
  subtotal : Rat
  cost_total : Rat
deriving DecidableEq

/-- The budget adjustment of one iteration of the selection loop of
`get_products_for_profile`: `none` is a `continue` of the `while` loop,
`some (qty, item_total)` the quantity and unrounded item total that will
be appended.  When the item would exceed the budget, a `SNACKER` skips
it; other profiles reduce the quantity to
`max(1, int((target_max - current_total) / retail))` (dead `continue`
when that is nonpositive, which never happens). -/
def select_step (profile : Profile) (target_max current_total retail : Rat)
    (qty1 : Int) : Option (Int × Rat) :=
  if target_max < current_total + retail * (qty1 : Rat) then
    if profile = .SNACKER then none
    else
      if max 1 (pytrunc ((target_max - current_total) / retail)) ≤ 0 then none
      else some (max 1 (pytrunc ((target_max - current_total) / retail)),
        retail * (((max 1 (pytrunc ((target_max - current_total) / retail)) : Int)) : Rat))
  else some (qty1, retail * (qty1 : Rat))

/-- The selection `while` loop of `get_products_for_profile`; the fuel is
the remaining number of `attempts` out of `max_attempts`. -/
def select_loop (profile : Profile) (d : Date) (campaigns : List BrandCampaign)
    (promos : List StorePromo) (pool : List PoolItem) (target_max : Rat)
    (num_items : Int) :
    Nat → List BasketItem → Rat → RNG → List BasketItem × RNG
  | 0, acc, _, rng => (acc, rng)
  | fuel + 1, acc, current_total, rng =>
    if (acc.length : Int) < num_items then
      match pool with
      | [] => (acc, rng)
      | q :: _ =>
        let cfg := CUSTOMER_PROFILES profile
        let r1 := rng.ri
        let product := pool.getD (r1.1.natAbs % pool.length) q
        let retail := product.retail_price
        let r2 := r1.2.ri
        let qty0 : Int :=
          if product.wholesale_only then randint 1 3 r2.1
          else randint cfg.qty_lo cfg.qty_hi r2.1
        let rng2 := r2.2
        let in_campaign := (is_within_campaign d campaigns product.brand).isSome
        let in_promo := (is_within_store_promo d promos product.barcode).isSome
        let qty1 :=
          if (in_campaign || in_promo) && !(profile = .SNACKER) then
            min (qty0 + 1) (cfg.qty_hi + 2)
          else qty0
        match select_step profile target_max current_total retail qty1 with
        | none =>
          select_loop profile d campaigns promos pool target_max num_items
            fuel acc current_total rng2
        | some (qty, it) =>
          if acc.any (fun b => b.barcode == product.barcode) then
            select_loop profile d campaigns promos pool target_max num_items
              fuel acc current_total rng2
          else
            let b : BasketItem :=
              { product with
                quantity := qty
                subtotal := pyRound 2 it
                cost_total := pyRound 2 (product.cost_price * (qty : Rat)) }
            let acc2 := acc ++ [b]
            let ct2 := current_total + it
            if target_max ≤ ct2 then (acc2, rng2)
            else
              select_loop profile d campaigns promos pool target_max num_items
                fuel acc2 ct2 rng2
    else (acc, rng)

/-- The `get_products_for_profile` of v3. -/
def get_products_for_profile (profile : Profile) (d : Date)
    (campaigns : List BrandCampaign) (promos : List StorePromo) (rng : RNG) :
    List BasketItem × RNG :=
  let cfg := CUSTOMER_PROFILES profile
  let inflation := get_inflation_factor d
  let target_max := cfg.ticket_hi * inflation
  let r0 := rng.ri
  let num_items := randint cfg.items_lo cfg.items_hi r0.1
  let pool := selection_pool profile d
  select_loop profile d campaigns promos pool target_max num_items
    (num_items * 5).toNat [] 0 r0.2

/-- Sum of the `subtotal` fields of a basket. -/
def sumSubtotals (l : List BasketItem) : Rat := (l.map (·.subtotal)).sum

/-- Sum of the `cost_total` fields of a basket. -/
def sumCostTotals (l : List BasketItem) : Rat := (l.map (·.cost_total)).sum

/-- The largest retail price appearing in a pool (`0` for the empty
pool). -/
def poolMaxRetail (l : List PoolItem) : Rat :=
  l.foldr (fun p m => max p.retail_price m) 0

/-- The `get_daily_transaction_count` of v3. -/
def get_daily_transaction_count (d : Date) (holidays : List Holiday) (rng : RNG) :
    Int × RNG :=
  let base_count : Rat := (BASE_DAILY_TRANSACTIONS : Rat)
  let seasonality := get_seasonality_multiplier d ""
  let dow_mult := get_day_of_week_multiplier d
  let hol_mult := holiday_mult d holidays
  let payday_mult := get_payday_multiplier d
  let adjusted := base_count * seasonality * dow_mult * hol_mult * payday_mult
  let x := rng.rq
  let adjusted2 := adjusted * uniformR 0.85 1.15 x.1
  (max 50 (pytrunc adjusted2), x.2)

/-- The `generate_transaction_time` of v3: the weighted hour choice and the
minute and second draws (the result is the `(hour, minute, second)`
triple the produced datetime carries). -/
def generate_transaction_time (rng : RNG) : (Nat × Nat × Nat) × RNG :=
  let hours : List Nat := [8, 9, 10, 11, 12, 13, 14, 15, 16, 17, 18]
  let r1 := rng.ri
  let hour := choiceD hours 8 r1.1
  let r2 := r1.2.ri
  let minute := (randint 0 59 r2.1).toNat
  let r3 := r2.2.ri
  let second := (randint 0 59 r3.1).toNat
  ((hour, minute, second), r3.2)

/-- The `select_customer_profile` of v3 (weighted choice over the three
profile keys). -/
def select_customer_profile (rng : RNG) : Profile × RNG :=
  let r := rng.ri
  (choiceD [Profile.SNACKER, Profile.HOUSEHOLD, Profile.VENDOR] Profile.SNACKER r.1, r.2)

/-- One transaction of `generate_daily_transactions`: the per-transaction
data of the loop body.  `counter` is `tx_counter`; the transaction id
rendered by the source is `f"TX-{date:%Y%m%d}-{counter:04d}"`, which for
a fixed day is injective in `counter`. -/
structure Tx where
  counter : Nat
  profile : Profile
  payment : String
  hour : Nat
  minute : Nat
  second : Nat
  items : List BasketItem
  total_amount : Rat
  total_cost : Rat
deriving DecidableEq

/-- The `for tx_counter in range(1, target_transactions + 1)` loop of
`generate_daily_transactions`; the fuel is the number of remaining
counters. -/
def tx_loop (d : Date) (campaigns : List BrandCampaign) (promos : List StorePromo) :
    Nat → Nat → RNG → List Tx × RNG
  | 0, _, rng => ([], rng)
  | fuel + 1, counter, rng =>
    let pr := select_customer_profile rng
    let profile := pr.1
    let ir := get_products_for_profile profile d campaigns promos pr.2
    let items := ir.1
    if items = [] then tx_loop d campaigns promos fuel (counter + 1) ir.2
    else
      let tx_total := (items.map (·.subtotal)).sum
      let tx_cost := (items.map (·.cost_total)).sum
      let tr := generate_transaction_time ir.2
      let t3 := tr.1
      let npr := tr.2.ri
      let payment :=
        if profile = .SNACKER then choiceD ["CASH", "GCASH"] "CASH" npr.1
        else choiceD PAYMENT_METHODS "CASH" npr.1
      let tx : Tx := ⟨counter, profile, payment, t3.1, t3.2.1, t3.2.2, items, tx_total, tx_cost⟩
      let rr := tx_loop d campaigns promos fuel (counter + 1) npr.2
      (tx :: rr.1, rr.2)

/-- The `generate_daily_transactions` of v3, at the granularity of
transactions (the emitted line items of one transaction are
`tx_line_items`). -/
def generate_daily_transactions (d : Date) (campaigns : List BrandCampaign)
    (promos : List StorePromo) (holidays : List Holiday) (rng : RNG) :
    List Tx × RNG :=
  let tr := get_daily_transaction_count d holidays rng
  tx_loop d campaigns promos tr.1.toNat 1 tr.2

/-- One row of the v3 sales CSV.  `txn_day`/`txn_counter` carry the data
rendered into `transaction_id` (see `Tx.counter` and `dayKey`), and
`hour`/`minute`/`second` the data rendered into `time`. -/
structure LineItem where
  txn_day : Nat
  txn_counter : Nat
  date : Date
  hour : Nat
  minute : Nat
  second : Nat
  customer_type : Profile
  barcode : String
  product_name : String
  brand : String
  category : String
  quantity : Int
  unit_price : Rat
  cost_price : Rat
  subtotal : Rat
  cost_total : Rat
  profit : Rat
  payment_method : String
  is_event : Bool
  event_source : String
  event_name : String
  inflation_factor : Rat
deriving DecidableEq

/-- The inner `for item in items` loop of `generate_daily_transactions`:
the rows appended for one transaction. -/
def tx_line_items (d : Date) (campaigns : List BrandCampaign)
    (promos : List StorePromo) (holidays : List Holiday) (tx : Tx) : List LineItem :=
  let h? := is_within_holiday d holidays
  tx.items.map (fun item =>
    let c? := is_within_campaign d campaigns item.brand
    let p? := is_within_store_promo d promos item.barcode
    let is_event := c?.isSome || p?.isSome || h?.isSome
    let src : String × String :=
      match c? with
      | some c => ("MANUFACTURER_CAMPAIGN", c.name)
      | none =>
        match p? with
        | some p => ("STORE_DISCOUNT", p.name)
        | none =>
          match h? with
          | some h => ("HOLIDAY", h.name)
          | none => ("", "")
    { txn_day := dayKey d
      txn_counter := tx.counter
      date := d
      hour := tx.hour
      minute := tx.minute
      second := tx.second
      customer_type := tx.profile
      barcode := item.barcode
      product_name := item.name
      brand := item.brand
      category := item.category
      quantity := item.quantity
      unit_price := item.retail_price
      cost_price := item.cost_price
      subtotal := item.subtotal
      cost_total := item.cost_total
      profit := pyRound 2 (item.subtotal - item.cost_total)
      payment_method := tx.payment
      is_event := is_event
      event_source := src.1
      event_name := src.2
      inflation_factor := pyRound 4 (get_inflation_factor d) })

/-- The flat list of rows one day contributes to the CSV. -/
def daily_line_items (d : Date) (campaigns : List BrandCampaign)
    (promos : List StorePromo) (holidays : List Holiday) (rng : RNG) : List LineItem :=
  ((generate_daily_transactions d campaigns promos holidays rng).1).flatMap
    (tx_line_items d campaigns promos holidays)

/-- The daily `while current_date <= END_DATE` loop of
`generate_all_sales`, over the list of dates it visits, keeping each
transaction tagged with its day key. -/
def run_transactions : List Date → List BrandCampaign → List StorePromo →
    List Holiday → RNG → List (Nat × Tx)
  | [], _, _, _, _ => []
  | d :: rest, campaigns, promos, holidays, rng =>
    let tr := generate_daily_transactions d campaigns promos holidays rng
    tr.1.map (fun t => (dayKey d, t)) ++ run_transactions rest campaigns promos holidays tr.2

/-- The `revenue = sum(s["subtotal"] ...)` over v3 rows. -/
def total_revenue (sales : List LineItem) : Rat := (sales.map (·.subtotal)).sum

/-- The `profit = sum(s["profit"] ...)` over v3 rows. -/
def total_profit (sales : List LineItem) : Rat := (sales.map (·.profit)).sum

/-- The per-year margin computation of v3's `print_summary_stats`
(line 848): `margin = (profit / revenue * 100) if revenue > 0 else 0`;
the division happens only under the guard. -/
def year_margin_pct (sales : List LineItem) : Option Rat :=
  if 0 < total_revenue sales then
    (qdiv? (total_profit sales) (total_revenue sales)).map (fun m => m * 100)
  else some 0

/-- The overall average-margin computation of v3's `print_summary_stats`
(line 876): `(total_profit/total_revenue)*100`, not guarded. -/
def average_margin_pct (sales : List LineItem) : Option Rat :=
  (qdiv? (total_profit sales) (total_revenue sales)).map (fun m => m * 100)

end MiniMart.V3

namespace MiniMart.Suppliers

/-- The `Supplier` dataclass of `generate_suppliers.py`. -/
structure Supplier where
  id : Int
  name : String
  contact_person : String
  contact_number : String
  email : String
  address : String
  notes : String
  status : String
  categories : List String
deriving DecidableEq

/-- Stand-in for `random.choice` on an empty supplier list (on which
Python raises). -/
def defaultSupplier : Supplier := ⟨0, "", "", "", "", "", "", "", []⟩

/-- A `PRODUCTS` catalog entry of `generate_suppliers.py`. -/
structure SProduct where
  barcode : String
  name : String
  category : String
  cost_price : Rat
deriving DecidableEq

/-- The `PRODUCTS` catalog of `generate_suppliers.py`. -/
def PRODUCTS : List SProduct := [
  ⟨"544900000099", "Coca-Cola Mismo 295ml", "SODA", 18.00⟩,
  ⟨"480198112005", "Sprite 500ml", "SODA", 22.50⟩,
  ⟨"480198112010", "Royal Tru Orange 500ml", "SODA", 22.50⟩,
  ⟨"480198112000", "Coke 500ml", "SODA", 22.50⟩,
  ⟨"480392525114", "Mountain Dew 500ml", "SODA", 20.00⟩,
  ⟨"480392525110", "Pepsi 500ml", "SODA", 20.00⟩,
  ⟨"480198111607", "Coke 1.5L", "SODA", 54.00⟩,
  ⟨"480198118062", "Sprite 1.5L", "SODA", 54.00⟩,
  ⟨"480191198062", "Royal Tru Orange 1.5L", "SODA", 54.00⟩,
  ⟨"480392515114", "Mountain Dew 1.5L", "SODA", 50.00⟩,
  ⟨"480392515110", "Pepsi 1.5L", "SODA", 50.00⟩,
  ⟨"480198111664", "Coke Zero 1.5L", "SODA", 54.00⟩,
  ⟨"480392515112", "7-up 1.5L", "SODA", 50.00⟩,
  ⟨"480198109722", "Royal Tru Strawberry 1.5L", "SODA", 54.00⟩,
  ⟨"480392515116", "Mirinda Orange 1.5L", "SODA", 54.00⟩,
  ⟨"480198111696", "Coke Light 1.5L", "SODA", 58.50⟩,
  ⟨"480198112717", "Coke Swakto 195ml (1 Case)", "SOFTDRINKS_CASE", 112.00⟩,
  ⟨"480198112720", "Royal Swakto 195ml (1 Case)", "SOFTDRINKS_CASE", 112.00⟩,
  ⟨"480198102719", "Sprite Swakto 195ml (1 Case)", "SOFTDRINKS_CASE", 112.00⟩,
  ⟨"480392513032", "Mountain Dew 290ml (1 Case)", "SOFTDRINKS_CASE", 180.00⟩,
  ⟨"480374937310", "Coke 1L (1 Case)", "SOFTDRINKS_CASE", 315.00⟩,
  ⟨"480611352020", "Juicy Lemon 237 ml (1 Bundle)", "SOFTDRINKS_CASE", 127.00⟩,
  ⟨"480732471900", "Sprite 1L (1 Case)", "SOFTDRINKS_CASE", 315.00⟩,
  ⟨"542353276241", "Royal 1L (1 Case)", "SOFTDRINKS_CASE", 315.00⟩,
  ⟨"955600121722", "Milo 22g Sachet", "BEVERAGES", 10.50⟩,
  ⟨"480036141081", "Nestle Bear Brand Fortified 33g", "BEVERAGES", 10.00⟩,
  ⟨"480864731007", "Tang Orange 250g", "BEVERAGES", 195.00⟩,
  ⟨"965412919731", "Energen Cereal Milk Chocolate Drink 40g", "BEVERAGES", 8.00⟩,
  ⟨"965412919613", "Energen Cereal Drink Mix Vanilla Hanger 40g", "BEVERAGES", 7.50⟩,
  ⟨"489120804013", "Oishi Prawn Crackers 60g", "SNACK", 15.50⟩,
  ⟨"893921341445", "San Sky Flakes Crackers Original 25g x 10s", "SNACK", 52.50⟩,
  ⟨"893951811445", "Hansel Mocha Sandwich", "SNACK", 54.00⟩,
  ⟨"748485200019", "555 Sardines in Tomato Sauce 155g", "CANNED_GOODS", 22.00⟩,
  ⟨"748485800035", "Argentina Corned Beef 260g", "CANNED_GOODS", 52.00⟩,
  ⟨"480002201028", "Hunts Pork & Beans 100g Doy", "CANNED_GOODS", 13.00⟩,
  ⟨"480057511015", "Alaska Classic Evaporated Filled Milk 140ml", "DAIRY", 25.50⟩,
  ⟨"480057513016", "Alaska Condensada Sweetened Condensed Creamer 168ml", "DAIRY", 35.00⟩,
  ⟨"480864702009", "Eden Cheese 165g", "DAIRY", 70.00⟩,
  ⟨"480535824701", "Dari Creme Butter Milk 100g", "DAIRY", 37.00⟩,
  ⟨"000008586780", "Datu Puti Patis 1L", "CONDIMENTS", 73.00⟩,
  ⟨"642611907726", "Ajinomoto Seasoning Mix 50g", "CONDIMENTS", 11.50⟩,
  ⟨"642647382226", "Sisters Night Plus Cottony Napkin", "PERSONAL_CARE", 40.00⟩,
  ⟨"642321541122", "Sisters Overnight Dry", "PERSONAL_CARE", 105.00⟩,
  ⟨"672329634182", "Whisper Cottony Soft Clean X-Long Overnight", "PERSONAL_CARE", 115.00⟩,
  ⟨"480088814685", "Sunsilk Strong & Long 350ml", "PERSONAL_CARE", 135.00⟩,
  ⟨"870021639476", "Downy Sunrise Fresh Fabric Conditioner Sachet 20ml", "HOUSEHOLD", 6.00⟩,
  ⟨"480004784003", "Zonrox Original Bleach 250ml", "HOUSEHOLD", 34.00⟩,
  ⟨"037000359562", "Ariel With a Touch of Downy Freshness Powder", "HOUSEHOLD", 595.00⟩,
  ⟨"490243086729", "Joy Dishwashing Liquid Lemon 475ml", "HOUSEHOLD", 120.00⟩,
  ⟨"490243078997", "Joy Dishwashing Liquid Lemon Sachet 40ml", "HOUSEHOLD", 10.50⟩,
  ⟨"489310100015", "Lucky Me Pancit Canton with Kalamnsi 60g", "INSTANT_NOODLES", 11.00⟩]

/-- The `ANNUAL_INFLATION_RATE` of `generate_suppliers.py`. -/
def ANNUAL_INFLATION_RATE : Rat := 0.045

/-- The `RETURN_PROBABILITY` of `generate_suppliers.py`. -/
def RETURN_PROBABILITY : Rat := 0.08

/-- The `get_inflation_factor` of `generate_suppliers.py` (same formula as
v3). -/
def get_inflation_factor (d : Date) : Rat :=
  let days_from_start : Int := d.ord - START_ORD
  let years_from_start : Rat := (days_from_start : Rat) / 365.25
  1 + ANNUAL_INFLATION_RATE * years_from_start

/-- The `get_inflated_cost` of `generate_suppliers.py`. -/
def get_inflated_cost (base_cost : Rat) (d : Date) : Rat :=
  pyRound 2 (base_cost * get_inflation_factor d)

/-- The five `reasons` strings of the return block. -/
def RETURN_REASONS : List String := [
  "Near expiry - supplier policy return",
  "Damaged packaging discovered during inventory check",
  "Product recall by manufacturer",
  "Quality issue reported by customers",
  "Expired stock - supplier credit agreement"]

/-- The `InventoryBatch` dataclass; datetimes are carried as ordinals, and
the rendered `supplier_ref` invoice string
`f"{initials}-{date:%Y%m%d}-{batch_id:04d}"` is carried as the data it
is rendered from (`ref_name`, `ref_ord`, `ref_index`). -/
structure InventoryBatch where
  id : Int
  product_barcode : String
  product_name : String
  quantity : Int
  expiry_ord : Int
  received_ord : Int
  ref_name : String
  ref_ord : Int
  ref_index : Int
  supplier_name : String
  supplier_id : Int
  cost_price : Rat
  status : String
deriving DecidableEq

/-- The `StockMovementReturn` dataclass; `created_ord` is the ordinal of
`created_at`, and the `reference = f"RET-{supplier_ref}"` string is
carried as the data of the underlying supplier ref. -/
structure StockMovementReturn where
  id : Int
  batch_id : Int
  product_barcode : String
  product_name : String
  supplier_id : Int
  supplier_name : String
  movement_type : String
  quantity_change : Int
  reason : String
  ref_name : String
  ref_ord : Int
  ref_index : Int
  cost_price : Rat
  created_ord : Int
deriving DecidableEq

/-- The mutable state of `generate_batches_and_returns`: the id
counters, the `next_restock_date` map and the accumulated lists. -/
structure GenSt where
  batch_id : Int
  return_id : Int
  next_restock : String → Int
  batches : List InventoryBatch
  returns : List StockMovementReturn

/-- The batch-quantity computation of one restock: the base draw
`randint(10, 200)`, the category scaling (with a fresh `randint(5, 30)`
draw for `SOFTDRINKS_CASE`) and the seasonal scaling; the returned
oracle reflects exactly the draws the taken branches consume. -/
def base_batch_qty (p : SProduct) (d : Date) (rng : RNG) : Int × RNG :=
  let r2 := rng.ri
  let bq0 : Int := randint 10 200 r2.1
  let r3 := r2.2.ri
  let bq1 : Int :=
    if p.category ∈ (["SODA", "SNACK", "INSTANT_NOODLES"] : List String) then
      pytrunc ((bq0 : Rat) * 1.5)
    else if p.category = "SOFTDRINKS_CASE" then randint 5 30 r3.1
    else bq0
  let rng2 : RNG := if p.category = "SOFTDRINKS_CASE" then r3.2 else r2.2
  let bq2 : Int :=
    if d.month = 12 then pytrunc ((bq1 : Rat) * 1.8)
    else if d.month ∈ ([11, 3, 4] : List Nat) then pytrunc ((bq1 : Rat) * 1.3)
    else bq1
  (bq2, rng2)

/-- The possible supplier return generated right after a batch: the
`random.random() < RETURN_PROBABILITY` draw, the delay draw, the
`END_DATE` guard, and the returned-quantity and reason draws; the
returned oracle reflects exactly the draws the taken branches
consume. -/
def make_return (endOrd : Int) (d : Date) (return_id batch_id : Int) (p : SProduct)
    (supplier : Supplier) (cost_price : Rat) (bq2 expiry_days : Int) (rng : RNG) :
    Option StockMovementReturn × RNG :=
  let xr := rng.rq
  let r5 := xr.2.ri
  let ur := r5.2.rq
  let r6 := ur.2.ri
  let md0 : Int := min (expiry_days - 5) 180
  let max_delay : Int := if md0 < 30 then 30 else md0
  let return_delay_days := randint 30 max_delay r5.1
  let return_ord := d.ord + return_delay_days
  let return_qty : Int := max 1 (pytrunc ((bq2 : Rat) * uniformR 0.1 0.5 ur.1))
  let reason := choiceD RETURN_REASONS "" r6.1
  if xr.1 < RETURN_PROBABILITY then
    if return_ord ≤ endOrd then
      (some ⟨return_id, batch_id, p.barcode, p.name, supplier.id, supplier.name,
             "SUPPLIER_RETURN", -return_qty, reason, supplier.name, d.ord, batch_id,
             cost_price, return_ord⟩, r6.2)
    else (none, r5.2)
  else (none, xr.2)

/-- The body of the `for product in PRODUCTS` loop of
`generate_batches_and_returns`: one possible restock (with its possible
return) of one product on one day. -/
def restock_product (suppliers : List Supplier) (endOrd : Int) (d : Date)
    (st : GenSt) (rng : RNG) (p : SProduct) : GenSt × RNG :=
  if d.ord < st.next_restock p.barcode then (st, rng)
  else
    let available := suppliers.filter (fun s => s.categories.contains p.category)
    let r1 := rng.ri
    let supplier :=
      if available = [] then choiceD suppliers defaultSupplier r1.1
      else choiceD available defaultSupplier r1.1
    let bqr := base_batch_qty p d r1.2
    let bq2 : Int := bqr.1
    let r4 := bqr.2.ri
    let expiry_days : Int :=
      if p.category ∈ (["DAIRY", "BEVERAGES"] : List String) then randint 30 180 r4.1
      else if p.category = "CANNED_GOODS" then randint 365 730 r4.1
      else if p.category ∈ (["PERSONAL_CARE", "HOUSEHOLD"] : List String) then randint 365 1095 r4.1
      else if p.category = "CONDIMENTS" then randint 180 365 r4.1
      else randint 30 365 r4.1
    let cost_price := get_inflated_cost p.cost_price d
    let batch : InventoryBatch :=
      ⟨st.batch_id, p.barcode, p.name, bq2, d.ord + expiry_days, d.ord,
       supplier.name, d.ord, st.batch_id, supplier.name, supplier.id, cost_price, "ACTIVE"⟩
    let st1 : GenSt := { st with batches := st.batches ++ [batch] }
    let rr : Option StockMovementReturn × RNG :=
      make_return endOrd d st1.return_id st.batch_id p supplier cost_price
        bq2 expiry_days r4.2
    let st2 : GenSt :=
      match rr.1 with
      | some r => { st1 with returns := st1.returns ++ [r], return_id := st1.return_id + 1 }
      | none => st1
    let r7 := rr.2.ri
    let restock_variance := randint (-3) 7 r7.1
    let st3 : GenSt :=
      { st2 with
        batch_id := st2.batch_id + 1
        next_restock := fun b => if b = p.barcode then d.ord + 14 + restock_variance
                                 else st2.next_restock b }
    (st3, r7.2)

/-- One iteration of the daily `while` loop: all products, in catalog
order. -/
def restock_day (suppliers : List Supplier) (endOrd : Int) (d : Date)
    (st : GenSt) (rng : RNG) : GenSt × RNG :=
  PRODUCTS.foldl (fun sr p => restock_product suppliers endOrd d sr.1 sr.2 p) (st, rng)

/-- The `while current_date <= END_DATE` loop of
`generate_batches_and_returns`; the fuel bounds the number of visited
days. -/
def day_loop (suppliers : List Supplier) (endOrd : Int) :
    Nat → Date → GenSt → RNG → GenSt × RNG
  | 0, _, st, rng => (st, rng)
  | fuel + 1, d, st, rng =>
    if endOrd < d.ord then (st, rng)
    else
      let sr := restock_day suppliers endOrd d st rng
      day_loop suppliers endOrd fuel (nextDay d) sr.1 sr.2

/-- The `next_restock_date` initialization
`{p["barcode"]: START_DATE + timedelta(days=random.randint(0, 14)) ...}`. -/
def init_restock : List SProduct → (String → Int) → RNG → (String → Int) × RNG
  | [], f, rng => (f, rng)
  | p :: rest, f, rng =>
    let r := rng.ri
    let v := START_ORD + randint 0 14 r.1
    init_restock rest (fun b => if b = p.barcode then v else f b) r.2

/-- The `generate_batches_and_returns` of `generate_suppliers.py`;
`endOrd` is the ordinal of the dynamic `END_DATE`. -/
def generate_batches_and_returns (suppliers : List Supplier) (endOrd : Int)
    (rng : RNG) : List InventoryBatch × List StockMovementReturn :=
  let nr := init_restock PRODUCTS (fun _ => START_ORD) rng
  let fuel := (endOrd - START_ORD + 1).toNat
  let st := (day_loop suppliers endOrd fuel START_DATE ⟨1, 1, nr.1, [], []⟩ nr.2).1
  (st.batches, st.returns)

/-- The per-return invariant of the claim: the return references the
batch generated in the same loop iteration. -/
def returnMatches (endOrd : Int) (b : InventoryBatch) (r : StockMovementReturn) : Prop :=
  b.id = r.batch_id ∧ b.product_barcode = r.product_barcode ∧
  b.product_name = r.product_name ∧ b.supplier_id = r.supplier_id ∧
  b.supplier_name = r.supplier_name ∧ b.cost_price = r.cost_price ∧
  r.quantity_change < 0 ∧ 1 ≤ -r.quantity_change ∧
  -r.quantity_change ≤ b.quantity ∧
  b.received_ord + 30 ≤ r.created_ord ∧ r.created_ord ≤ endOrd

instance (endOrd : Int) (b : InventoryBatch) (r : StockMovementReturn) :
    Decidable (returnMatches endOrd b r) := by
  unfold returnMatches
  infer_instance

/-- The loop invariant of `generate_batches_and_returns`: every return
accumulated so far references an accumulated batch as the claim
states. -/
def SupInv (endOrd : Int) (st : GenSt) : Prop :=
  ∀ r ∈ st.returns, ∃ b ∈ st.batches, returnMatches endOrd b r

end MiniMart.Suppliers

/-! ## Theorems -/

set_option maxRecDepth 100000

namespace MiniMart

theorem pytrunc_of_nonneg {q : Rat} (h : 0 ≤ q) : pytrunc q = ⌊q⌋ := by
  simp [pytrunc, h]

theorem pytrunc_le_self {q : Rat} (h : 0 ≤ q) : (pytrunc q : Rat) ≤ q := by
  rw [pytrunc_of_nonneg h]
  exact Int.floor_le q

theorem le_pytrunc {m : Int} {q : Rat} (h0 : 0 ≤ q) (h : (m : Rat) ≤ q) :
    m ≤ pytrunc q := by
  rw [pytrunc_of_nonneg h0]
  exact Int.le_floor.mpr h

theorem pytrunc_le_of_le {m : Int} {q : Rat} (h0 : 0 ≤ q) (h : q ≤ (m : Rat)) :
    pytrunc q ≤ m := by
  rw [pytrunc_of_nonneg h0]
  calc ⌊q⌋ ≤ ⌊(m : Rat)⌋ := Int.floor_le_floor h
  _ = m := Int.floor_intCast m

theorem pytrunc_nonneg {q : Rat} (h : 0 ≤ q) : 0 ≤ pytrunc q :=
  le_pytrunc h (by exact_mod_cast h)

theorem floor_le_pyRoundInt (s : Rat) : ⌊s⌋ ≤ pyRoundInt s := by
  unfold pyRoundInt
  split
  · exact le_refl _
  · split
    · omega
    · split
      · exact le_refl _
      · omega

theorem pyRound_lower {k : Nat} (q : Rat) : q - 1 < pyRound k q := by
  have hp0 : (0 : Rat) < 10 ^ k := by positivity
  have hp1 : (1 : Rat) ≤ 10 ^ k := one_le_pow₀ (by norm_num)
  unfold pyRound
  rw [lt_div_iff₀ hp0]
  have h1 : q * 10 ^ k - 1 < (⌊q * 10 ^ k⌋ : Rat) := Int.sub_one_lt_floor _
  have h2 : (⌊q * 10 ^ k⌋ : Rat) ≤ (pyRoundInt (q * 10 ^ k) : Rat) := by
    exact_mod_cast floor_le_pyRoundInt _
  nlinarith

theorem pyRound_int_div (k : Nat) (n : Int) :
    pyRound k ((n : Rat) / 10 ^ k) = (n : Rat) / 10 ^ k := by
  have hp0 : ((10 : Rat) ^ k) ≠ 0 := by positivity
  unfold pyRound pyRoundInt
  rw [div_mul_cancel₀ _ hp0]
  simp

theorem pyRound_form (k : Nat) (q : Rat) :
    ∃ n : Int, pyRound k q = (n : Rat) / 10 ^ k :=
  ⟨pyRoundInt (q * 10 ^ k), rfl⟩

theorem le_randint {a b : Int} (n : Int) (h : a ≤ b) : a ≤ randint a b n := by
  unfold randint
  have := Int.emod_nonneg n (show b - a + 1 ≠ 0 by omega)
  omega

theorem randint_le {a b : Int} (n : Int) (h : a ≤ b) : randint a b n ≤ b := by
  unfold randint
  have := Int.emod_lt_of_pos n (show (0 : Int) < b - a + 1 by omega)
  omega

theorem le_uniformR (a b x : Rat) : a ≤ uniformR a b x := le_max_left a _

theorem uniformR_le {a b : Rat} (x : Rat) (h : a ≤ b) : uniformR a b x ≤ b :=
  max_le h (min_le_left b x)

theorem choiceD_mem {α : Type} {l : List α} (d : α) (n : Int) (h : l ≠ []) :
    choiceD l d n ∈ l := by
  unfold choiceD
  have hl : 0 < l.length := List.length_pos.mpr h
  have hidx : n.natAbs % l.length < l.length := Nat.mod_lt _ hl
  rw [List.getD_eq_getElem l d hidx]
  exact List.getElem_mem hidx

theorem listMul_subset {α : Type} {l : List α} {n : Nat} {x : α}
    (h : x ∈ listMul l n) : x ∈ l := by
  unfold listMul at h
  rcases List.mem_flatten.mp h with ⟨s, hs, hx⟩
  rcases List.mem_replicate.mp hs with ⟨-, rfl⟩
  exact hx

end MiniMart

namespace MiniMart

/-- C7: `get_inflation_factor` applied to `START_DATE` returns exactly
`1.0` in both `generate_history_v3.py` and `generate_suppliers.py`: the
elapsed-day count is `0`, so the factor is exactly `1`. -/
theorem inflation_factor_one_at_start :
    V3.get_inflation_factor START_DATE = 1 ∧
    Suppliers.get_inflation_factor START_DATE = 1 := by
  with_unfolding_all decide

/-- C5: for every date on or after `START_DATE`, the inflation factor is
`1 + 0.045 * ((d - START_DATE).days / 365.25)` (in both scripts, and the
two scripts agree), the inflated retail and cost prices are the base
values times the factor rounded to 2 decimal places, and the daily
revenue target is the base target times the factor, unrounded. -/
theorem inflation_formula (d : Date) (h : START_ORD ≤ d.ord) :
    V3.get_inflation_factor d =
      1 + (45 / 1000) * (((d.ord - START_DATE.ord : Int) : Rat) / (36525 / 100)) ∧
    Suppliers.get_inflation_factor d = V3.get_inflation_factor d ∧
    (∀ p : V3.Product, V3.get_inflated_prices p d =
      (pyRound 2 (p.base_retail * V3.get_inflation_factor d),
       pyRound 2 (p.base_cost * V3.get_inflation_factor d))) ∧
    V3.get_daily_revenue_target d = 82500 * V3.get_inflation_factor d ∧
    (∀ c : Rat, Suppliers.get_inflated_cost c d =
      pyRound 2 (c * Suppliers.get_inflation_factor d)) := by
  refine ⟨?_, rfl, fun p => rfl, rfl, fun c => rfl⟩
  show (1 : Rat) + V3.ANNUAL_INFLATION_RATE * (((d.ord - START_ORD : Int) : Rat) / 365.25) = _
  norm_num [V3.ANNUAL_INFLATION_RATE, START_DATE, START_ORD]

theorem inflation_formula_witness :
    START_ORD ≤ START_DATE.ord ∧
    V3.get_daily_revenue_target START_DATE = 82500 * V3.get_inflation_factor START_DATE :=
  ⟨le_refl _, (inflation_formula START_DATE (le_refl _)).2.2.2.1⟩

/-- C8: the multiplier and event-activeness functions of both history
generators are deterministic functions of their arguments: equal
arguments give equal results, and (their embeddings being plain
functions of those arguments) they consume no randomness. -/
theorem multiplier_functions_deterministic :
    (∀ d₁ d₂ c₁ c₂, d₁ = d₂ → c₁ = c₂ →
      V3.get_seasonality_multiplier d₁ c₁ = V3.get_seasonality_multiplier d₂ c₂) ∧
    (∀ d₁ d₂, d₁ = d₂ →
      V3.get_day_of_week_multiplier d₁ = V3.get_day_of_week_multiplier d₂) ∧
    (∀ d₁ d₂, d₁ = d₂ → V3.get_payday_multiplier d₁ = V3.get_payday_multiplier d₂) ∧
    (∀ d₁ d₂ l₁ l₂ b₁ b₂, d₁ = d₂ → l₁ = l₂ → b₁ = b₂ →
      V3.is_within_campaign d₁ l₁ b₁ = V3.is_within_campaign d₂ l₂ b₂) ∧
    (∀ d₁ d₂ l₁ l₂ b₁ b₂, d₁ = d₂ → l₁ = l₂ → b₁ = b₂ →
      V3.is_within_store_promo d₁ l₁ b₁ = V3.is_within_store_promo d₂ l₂ b₂) ∧
    (∀ d₁ d₂ l₁ l₂, d₁ = d₂ → l₁ = l₂ →
      V3.is_within_holiday d₁ l₁ = V3.is_within_holiday d₂ l₂) ∧
    (∀ d₁ d₂ c₁ c₂, d₁ = d₂ → c₁ = c₂ →
      V2.get_seasonality_multiplier d₁ c₁ = V2.get_seasonality_multiplier d₂ c₂) ∧
    (∀ d₁ d₂, d₁ = d₂ →
      V2.get_day_of_week_multiplier d₁ = V2.get_day_of_week_multiplier d₂) ∧
    (∀ d₁ d₂ l₁ l₂ b₁ b₂, d₁ = d₂ → l₁ = l₂ → b₁ = b₂ →
      V2.is_within_campaign d₁ l₁ b₁ = V2.is_within_campaign d₂ l₂ b₂) ∧
    (∀ d₁ d₂ l₁ l₂ b₁ b₂, d₁ = d₂ → l₁ = l₂ → b₁ = b₂ →
      V2.is_within_store_promo d₁ l₁ b₁ = V2.is_within_store_promo d₂ l₂ b₂) ∧
    (∀ d₁ d₂ l₁ l₂, d₁ = d₂ → l₁ = l₂ →
      V2.is_within_holiday d₁ l₁ = V2.is_within_holiday d₂ l₂) := by
  refine ⟨?_, ?_, ?_, ?_, ?_, ?_, ?_, ?_, ?_, ?_, ?_⟩ <;> intros <;> subst_vars <;> rfl

theorem multiplier_functions_deterministic_witness :
    (START_DATE = START_DATE ∧ "SODA" = "SODA") ∧
    V3.get_seasonality_multiplier START_DATE "SODA" =
      V3.get_seasonality_multiplier START_DATE "SODA" :=
  ⟨⟨rfl, rfl⟩, multiplier_functions_deterministic.1 START_DATE START_DATE "SODA" "SODA" rfl rfl⟩

/-- C2 counterexample: on a sales list whose total revenue is `0` (here
the empty list), the overall margin computation
`(total_profit/total_revenue)*100` of `print_summary_stats` divides by
zero in v2 (line 519) and in v3 (line 876): those divisions are not
guarded, so the claim that every margin division is guarded by
`revenue > 0` is false. -/
theorem margin_guard_counterexample :
    V2.total_revenue [] = 0 ∧ V2.profit_margin_pct [] = none ∧
    V3.total_revenue [] = 0 ∧ V3.average_margin_pct [] = none := by
  with_unfolding_all decide

/-- C2 amended: only the per-year margin computation of v3's
`print_summary_stats` guards its division by `revenue > 0`; that guarded
computation never divides by zero (on any sales list, including one of
zero revenue), while the overall average-margin computations of v2
(line 519) and v3 (line 876) are unguarded and do divide by zero on a
zero-revenue sales list. -/
theorem guarded_year_margin_total (sales : List V3.LineItem) :
    (V3.year_margin_pct sales).isSome = true := by
  unfold V3.year_margin_pct
  split
  · next h =>
    simp [qdiv?, ne_of_gt h]
  · rfl

end MiniMart

namespace MiniMart

/-- C1: the demand multiplier stack is the product of the individual
multipliers.  In v2, `generate_daily_sales` computes the daily quantity
as the drawn base velocity times seasonality times day-of-week times the
active campaign, promo and holiday multipliers (each `1` when inactive),
truncated, plus the additive noise draw, clamped below to `1`.  In v3,
`get_daily_transaction_count` is the base count times seasonality times
day-of-week times holiday times payday times the uniform noise factor,
clamped below to `50`. -/
theorem demand_multiplier_stack :
    (∀ (d : Date) (p : V2.Product) (camps : List V2.BrandCampaign)
        (promos : List V2.StorePromo) (hols : List V2.Holiday) (rng : RNG),
      (V2.generate_daily_sales d p camps promos hols rng).1.quantity =
        max 1 (pytrunc ((randint 5 15 rng.ri.1 : Int) *
            (V2.get_seasonality_multiplier d p.category *
             V2.get_day_of_week_multiplier d *
             V2.campaign_mult d camps p.brand *
             V2.promo_mult d promos p.barcode *
             V2.holiday_mult d hols)) +
          randint (-2) 2 rng.ri.2.ri.1)) ∧
    (∀ (d : Date) (hols : List V3.Holiday) (rng : RNG),
      (V3.get_daily_transaction_count d hols rng).1 =
        max 50 (pytrunc ((V3.BASE_DAILY_TRANSACTIONS : Rat) *
          V3.get_seasonality_multiplier d "" *
          V3.get_day_of_week_multiplier d *
          V3.holiday_mult d hols *
          V3.get_payday_multiplier d *
          uniformR 0.85 1.15 rng.rq.1))) := by
  constructor
  · intro d p camps promos hols rng
    unfold V2.generate_daily_sales V2.campaign_mult V2.promo_mult V2.holiday_mult
    rcases hc : V2.is_within_campaign d camps p.brand with - | c <;>
      rcases hp : V2.is_within_store_promo d promos p.barcode with - | pr <;>
      rcases hh : V2.is_within_holiday d hols with - | h <;>
      simp only [hc, hp, hh] <;>
      · congr 2
        ring
  · intro d hols rng
    rfl

end MiniMart

namespace MiniMart

/-- C3 counterexample: for the `HOUSEHOLD` profile on `START_DATE` with
no campaigns or promos, the oracle that draws `num_items = 8`, picks the
Ariel powder (index 77 of the selection pool) with quantity 2 (subtotal
1320) and then the Tang orange (index 72) produces a basket whose
subtotal sum is 1536, strictly above the inflation-adjusted maximum
ticket value `1500 * 1`: in the over-budget branch the quantity
`max(1, int((target_max - current_total) / retail))` is clamped up to
`1`, and a full-priced item is still appended. -/
theorem basket_budget_counterexample :
    (V3.CUSTOMER_PROFILES .HOUSEHOLD).ticket_hi * V3.get_inflation_factor START_DATE = 1500 ∧
    V3.sumSubtotals
        (V3.get_products_for_profile .HOUSEHOLD START_DATE [] [] ⟨[5, 77, 1, 72, 0], []⟩).1
      = 1536 ∧
    (1500 : Rat) < 1536 := by
  with_unfolding_all decide

end MiniMart

namespace MiniMart

theorem priced_from_catalog {d : Date} {x : V3.PoolItem}
    (hx : x ∈ V3.priced_products d) :
    ∃ prod ∈ V3.PRODUCTS, x = V3.mkPoolItem d prod := by
  unfold V3.priced_products at hx
  rcases List.mem_map.mp hx with ⟨prod, hmem, rfl⟩
  exact ⟨prod, (List.mem_filter.mp hmem).1, rfl⟩

theorem product_pool_sub {d : Date} {x : V3.PoolItem}
    (hx : x ∈ V3.product_pool d) : x ∈ V3.priced_products d :=
  (List.mem_filter.mp hx).1

theorem wholesale_pool_sub {d : Date} {x : V3.PoolItem}
    (hx : x ∈ V3.wholesale_pool d) : x ∈ V3.priced_products d :=
  (List.mem_filter.mp hx).1

theorem cheap_sub {d : Date} {x : V3.PoolItem}
    (hx : x ∈ V3.cheap_products d) : x ∈ V3.product_pool d :=
  (List.mem_filter.mp hx).1

theorem mid_sub {d : Date} {x : V3.PoolItem}
    (hx : x ∈ V3.mid_products d) : x ∈ V3.product_pool d :=
  (List.mem_filter.mp hx).1

theorem expensive_sub {d : Date} {x : V3.PoolItem}
    (hx : x ∈ V3.expensive_products d) : x ∈ V3.product_pool d :=
  (List.mem_filter.mp hx).1

theorem weighted_pool_sub {d : Date} {x : V3.PoolItem}
    (hx : x ∈ V3.weighted_pool d) : x ∈ V3.product_pool d := by
  unfold V3.weighted_pool at hx
  rcases List.mem_flatMap.mp hx with ⟨p, hp, hxp⟩
  rcases List.mem_cons.mp hxp with rfl | hrep
  · exact hp
  · rcases List.mem_replicate.mp hrep with ⟨-, rfl⟩
    exact hp

theorem hero_extra_sub {d : Date} {x : V3.PoolItem}
    (hx : x ∈ V3.hero_extra d) : x ∈ V3.product_pool d := by
  unfold V3.hero_extra at hx
  rcases List.mem_flatMap.mp hx with ⟨p, hp, hxp⟩
  split at hxp
  · rcases List.mem_replicate.mp hxp with ⟨-, rfl⟩
    exact hp
  · simp at hxp

theorem selection_pool_from_catalog {profile : V3.Profile} {d : Date} {x : V3.PoolItem}
    (hx : x ∈ V3.selection_pool profile d) :
    ∃ prod ∈ V3.PRODUCTS, x = V3.mkPoolItem d prod := by
  unfold V3.selection_pool at hx
  rcases List.mem_append.mp hx with hb | hh
  · have hpriced : x ∈ V3.priced_products d := by
      cases profile
      · simp only at hb
        split at hb
        · rcases List.mem_append.mp hb with h4 | hm
          · exact product_pool_sub (cheap_sub (listMul_subset h4))
          · exact product_pool_sub (mid_sub hm)
        · exact product_pool_sub (weighted_pool_sub hb)
      · simp only at hb
        rcases List.mem_append.mp hb with hcm | he
        · rcases List.mem_append.mp hcm with hc | hm
          · exact product_pool_sub (cheap_sub (listMul_subset hc))
          · exact product_pool_sub (mid_sub (listMul_subset hm))
        · exact product_pool_sub (expensive_sub he)
      · simp only at hb
        rcases List.mem_append.mp hb with hw | hwh
        · exact product_pool_sub (weighted_pool_sub hw)
        · exact wholesale_pool_sub (listMul_subset hwh)
  
    exact priced_from_catalog hpriced
  · exact priced_from_catalog (product_pool_sub (hero_extra_sub hh))

end MiniMart

namespace MiniMart

theorem catalog_base_retail_gt_one : ∀ prod ∈ V3.PRODUCTS, (1 : Rat) < prod.base_retail := by
  with_unfolding_all decide

theorem one_le_inflation_factor {d : Date} (h : START_ORD ≤ d.ord) :
    1 ≤ V3.get_inflation_factor d := by
  unfold V3.get_inflation_factor
  have h0 : (0 : Rat) ≤ ((d.ord - START_ORD : Int) : Rat) := by
    exact_mod_cast sub_nonneg.mpr h
  have h1 : (0 : Rat) ≤ V3.ANNUAL_INFLATION_RATE * (((d.ord - START_ORD : Int) : Rat) / 365.25) := by
    apply mul_nonneg
    · norm_num [V3.ANNUAL_INFLATION_RATE]
    · exact div_nonneg h0 (by norm_num)
  linarith

theorem mkPoolItem_retail_pos {d : Date} {prod : V3.Product}
    (h : START_ORD ≤ d.ord) (hb : 1 < prod.base_retail) :
    0 < (V3.mkPoolItem d prod).retail_price := by
  show 0 < pyRound 2 (prod.base_retail * V3.get_inflation_factor d)
  have hf := one_le_inflation_factor h
  have h1 : 1 < prod.base_retail * V3.get_inflation_factor d := by nlinarith
  have h2 := pyRound_lower (k := 2) (prod.base_retail * V3.get_inflation_factor d)
  linarith

theorem mkPoolItem_retail_2dp (d : Date) (prod : V3.Product) :
    ∃ n : Int, (V3.mkPoolItem d prod).retail_price = (n : Rat) / 10 ^ 2 :=
  pyRound_form 2 _

theorem le_poolMaxRetail {p : V3.PoolItem} {l : List V3.PoolItem} (h : p ∈ l) :
    p.retail_price ≤ V3.poolMaxRetail l := by
  induction l with
  | nil => cases h
  | cons a t ih =>
    simp only [V3.poolMaxRetail, List.foldr_cons] at *
    rcases List.mem_cons.mp h with rfl | ht
    · exact le_max_left _ _
    · exact le_trans (ih ht) (le_max_right _ _)

theorem hero_in_selection_pool (profile : V3.Profile) (d : Date) :
    ∃ x ∈ V3.selection_pool profile d, ∃ prod ∈ V3.PRODUCTS,
      x = V3.mkPoolItem d prod ∧ 1 < prod.base_retail := by
  have hexists : ∃ prod ∈ V3.PRODUCTS, prod.never_sell = false ∧
      prod.wholesale_only = false ∧ (1 : Rat) < prod.hero_boost ∧
      pytrunc prod.hero_boost = 3 ∧ (1 : Rat) < prod.base_retail := by
    with_unfolding_all decide
  rcases hexists with ⟨prod, hmem, hns, hws, hhero, htr, hbr⟩
  have hpriced : V3.mkPoolItem d prod ∈ V3.priced_products d := by
    unfold V3.priced_products
    exact List.mem_map_of_mem _ (List.mem_filter.mpr ⟨hmem, by simp [hns]⟩)
  have hpool : V3.mkPoolItem d prod ∈ V3.product_pool d := by
    unfold V3.product_pool
    refine List.mem_filter.mpr ⟨hpriced, ?_⟩
    show (!(V3.mkPoolItem d prod).wholesale_only) = true
    rw [show (V3.mkPoolItem d prod).wholesale_only = prod.wholesale_only from rfl, hws]
    rfl
  have hhx : V3.mkPoolItem d prod ∈ V3.hero_extra d := by
    unfold V3.hero_extra
    apply List.mem_flatMap.mpr
    refine ⟨V3.mkPoolItem d prod, hpool, ?_⟩
    have hhb : (V3.mkPoolItem d prod).hero_boost = prod.hero_boost := rfl
    rw [if_pos (by rw [hhb]; exact hhero)]
    apply List.mem_replicate.mpr
    refine ⟨?_, rfl⟩
    rw [hhb, htr]
    decide
  refine ⟨V3.mkPoolItem d prod, ?_, prod, hmem, rfl, hbr⟩
  unfold V3.selection_pool
  exact List.mem_append.mpr (Or.inr hhx)

theorem poolMaxRetail_pos {profile : V3.Profile} {d : Date} (h : START_ORD ≤ d.ord) :
    0 < V3.poolMaxRetail (V3.selection_pool profile d) := by
  rcases hero_in_selection_pool profile d with ⟨x, hx, prod, hmem, rfl, hbr⟩
  exact lt_of_lt_of_le (mkPoolItem_retail_pos h hbr) (le_poolMaxRetail hx)

end MiniMart
namespace MiniMart

theorem select_loop_length (profile : V3.Profile) (d : Date)
    (campaigns : List V3.BrandCampaign) (promos : List V3.StorePromo)
    (pool : List V3.PoolItem) (target_max : Rat) (num_items : Int) :
    ∀ (fuel : Nat) (acc : List V3.BasketItem) (ct : Rat) (rng : RNG),
      ((V3.select_loop profile d campaigns promos pool target_max num_items
          fuel acc ct rng).1.length : Int) ≤ max (acc.length : Int) num_items := by
  intro fuel
  induction fuel with
  | zero =>
    intro acc ct rng
    exact le_max_left _ _
  | succ n ih =>
    intro acc ct rng
    simp only [V3.select_loop]
    split
    · next hlt =>
      split
      · exact le_max_left _ _
      · next q t =>
        split
        · exact ih _ _ _
        · split
          · exact ih _ _ _
          · split
            · next =>
              simp only [List.length_append, List.length_cons, List.length_nil]
              have : ((acc.length + 1 : Nat) : Int) ≤ num_items := by
                push_cast
                omega
              exact le_trans this (le_max_right _ _)
            · refine le_trans (ih _ _ _) ?_
              apply max_le
              · simp only [List.length_append, List.length_cons, List.length_nil]
                refine le_trans ?_ (le_max_right ((acc.length : Int)) num_items)
                push_cast
                omega
              · exact le_max_right _ _
    · exact le_max_left _ _

end MiniMart
namespace MiniMart

theorem select_loop_from_pool (profile : V3.Profile) (d : Date)
    (campaigns : List V3.BrandCampaign) (promos : List V3.StorePromo)
    (pool : List V3.PoolItem) (target_max : Rat) (num_items : Int) :
    ∀ (fuel : Nat) (acc : List V3.BasketItem) (ct : Rat) (rng : RNG)
      (b : V3.BasketItem),
      b ∈ (V3.select_loop profile d campaigns promos pool target_max num_items
          fuel acc ct rng).1 → b ∈ acc ∨ b.toPoolItem ∈ pool := by
  intro fuel
  induction fuel with
  | zero =>
    intro acc ct rng b hb
    exact Or.inl hb
  | succ n ih =>
    intro acc ct rng b hb
    simp only [V3.select_loop] at hb
    split at hb
    · next hlt =>
      split at hb
      · exact Or.inl hb
      · next q t =>
        have hprod : (q :: t).getD ((rng.ri.1).natAbs % (q :: t).length) q ∈ (q :: t) := by
          have hidx : (rng.ri.1).natAbs % (q :: t).length < (q :: t).length :=
            Nat.mod_lt _ (Nat.succ_pos _)
          rw [List.getD_eq_getElem _ q hidx]
          exact List.getElem_mem hidx
        split at hb
        · rcases ih _ _ _ _ hb with h | h
          · exact Or.inl h
          · exact Or.inr h
        · split at hb
          · rcases ih _ _ _ _ hb with h | h
            · exact Or.inl h
            · exact Or.inr h
          · split at hb
            · next =>
              rcases List.mem_append.mp hb with h | h
              · exact Or.inl h
              · rcases List.mem_cons.mp h with rfl | hnil
                · exact Or.inr hprod
                · cases hnil
            · rcases ih _ _ _ _ hb with h | h
              · rcases List.mem_append.mp h with h2 | h2
                · exact Or.inl h2
                · rcases List.mem_cons.mp h2 with rfl | hnil
                  · exact Or.inr hprod
                  · cases hnil
              · exact Or.inr h
    · exact Or.inl hb

end MiniMart
namespace MiniMart

theorem pyRound_two_fix {r : Rat} {nn : Int} (hr : r = (nn : Rat) / 10 ^ 2) (k : Int) :
    pyRound 2 (r * (k : Rat)) = r * (k : Rat) := by
  subst hr
  have h : ((nn : Rat) / 10 ^ 2) * (k : Rat) = ((nn * k : Int) : Rat) / 10 ^ 2 := by
    push_cast
    ring
  rw [h, pyRound_int_div]

theorem sumSubtotals_append (l : List V3.BasketItem) (b : V3.BasketItem) :
    V3.sumSubtotals (l ++ [b]) = V3.sumSubtotals l + b.subtotal := by
  simp [V3.sumSubtotals]

theorem select_step_some {profile : V3.Profile} {tm ct retail : Rat} {qty1 qty : Int}
    {it : Rat} (hr0 : 0 < retail) (hlt : ct < tm)
    (h : V3.select_step profile tm ct retail qty1 = some (qty, it)) :
    it = retail * (qty : Rat) ∧ ct + it < tm + retail := by
  unfold V3.select_step at h
  split at h
  · next hover =>
    split at h
    · exact absurd h (by simp)
    · split at h
      · exact absurd h (by simp)
      · next hq2 =>
        simp only [Option.some.injEq, Prod.mk.injEq] at h
        obtain ⟨rfl, rfl⟩ := h
        refine ⟨rfl, ?_⟩
        rcases le_or_lt (pytrunc ((tm - ct) / retail)) 0 with h0 | h1
        · rw [max_eq_left (by omega)]
          push_cast
          linarith
        · rw [max_eq_right (by omega)]
          have hx0 : (0 : Rat) ≤ (tm - ct) / retail := div_nonneg (by linarith) (le_of_lt hr0)
          have hfl := pytrunc_le_self hx0
          have h2 := mul_le_mul_of_nonneg_left hfl (le_of_lt hr0)
          rw [mul_div_cancel₀ _ (ne_of_gt hr0)] at h2
          linarith
  · next hfit =>
    simp only [Option.some.injEq, Prod.mk.injEq] at h
    obtain ⟨rfl, rfl⟩ := h
    refine ⟨rfl, ?_⟩
    push_neg at hfit
    linarith

theorem select_loop_budget (profile : V3.Profile) (d : Date)
    (campaigns : List V3.BrandCampaign) (promos : List V3.StorePromo)
    (pool : List V3.PoolItem) (target_max : Rat) (num_items : Int)
    (M : Rat) (hM : 0 < M)
    (hpool : ∀ p ∈ pool, 0 < p.retail_price ∧ p.retail_price ≤ M ∧
      ∃ nn : Int, p.retail_price = (nn : Rat) / 10 ^ 2) :
    ∀ (fuel : Nat) (acc : List V3.BasketItem) (ct : Rat) (rng : RNG),
      ct = V3.sumSubtotals acc → ct < target_max →
      V3.sumSubtotals (V3.select_loop profile d campaigns promos pool target_max
        num_items fuel acc ct rng).1 < target_max + M := by
  intro fuel
  induction fuel with
  | zero =>
    intro acc ct rng hct hlt
    show V3.sumSubtotals acc < target_max + M
    rw [← hct]
    linarith
  | succ n ih =>
    intro acc ct rng hct hlt
    simp only [V3.select_loop]
    split
    · next hlen =>
      split
      · show V3.sumSubtotals acc < target_max + M
        rw [← hct]
        linarith
      · next q t =>
        have hprod : (q :: t).getD ((rng.ri.1).natAbs % (q :: t).length) q ∈ (q :: t) := by
          have hidx : (rng.ri.1).natAbs % (q :: t).length < (q :: t).length :=
            Nat.mod_lt _ (Nat.succ_pos _)
          rw [List.getD_eq_getElem _ q hidx]
          exact List.getElem_mem hidx
        obtain ⟨hr0, hrM, nn, h2dp⟩ := hpool _ hprod
        split
        · exact ih _ _ _ hct hlt
        · next qty it hstep =>
          obtain ⟨hitform, hitlt⟩ := select_step_some hr0 hlt hstep
          split
          · exact ih _ _ _ hct hlt
          · split
            · next hstop =>
              rw [sumSubtotals_append]
              show V3.sumSubtotals acc + pyRound 2 it < target_max + M
              rw [hitform, pyRound_two_fix h2dp qty, ← hitform, ← hct]
              linarith
            · next hgo =>
              push_neg at hgo
              refine ih _ _ _ ?_ hgo
              rw [sumSubtotals_append]
              show ct + it = V3.sumSubtotals acc + pyRound 2 it
              rw [hitform, pyRound_two_fix h2dp qty, ← hitform, ← hct]
    · show V3.sumSubtotals acc < target_max + M
      rw [← hct]
      linarith

end MiniMart
namespace MiniMart

theorem select_step_some_snacker {tm ct retail : Rat} {qty1 qty : Int} {it : Rat}
    (h : V3.select_step .SNACKER tm ct retail qty1 = some (qty, it)) :
    it = retail * (qty : Rat) ∧ ct + it ≤ tm := by
  unfold V3.select_step at h
  split at h
  · simp at h
  · next hfit =>
    simp only [Option.some.injEq, Prod.mk.injEq] at h
    obtain ⟨rfl, rfl⟩ := h
    push_neg at hfit
    exact ⟨rfl, hfit⟩

theorem select_loop_budget_snacker (d : Date)
    (campaigns : List V3.BrandCampaign) (promos : List V3.StorePromo)
    (pool : List V3.PoolItem) (target_max : Rat) (num_items : Int)
    (hpool2 : ∀ p ∈ pool, ∃ nn : Int, p.retail_price = (nn : Rat) / 10 ^ 2) :
    ∀ (fuel : Nat) (acc : List V3.BasketItem) (ct : Rat) (rng : RNG),
      ct = V3.sumSubtotals acc → ct ≤ target_max →
      V3.sumSubtotals (V3.select_loop .SNACKER d campaigns promos pool target_max
        num_items fuel acc ct rng).1 ≤ target_max := by
  intro fuel
  induction fuel with
  | zero =>
    intro acc ct rng hct hle
    show V3.sumSubtotals acc ≤ target_max
    rw [← hct]
    exact hle
  | succ n ih =>
    intro acc ct rng hct hle
    simp only [V3.select_loop]
    split
    · next hlen =>
      split
      · show V3.sumSubtotals acc ≤ target_max
        rw [← hct]
        exact hle
      · next q t =>
        have hprod : (q :: t).getD ((rng.ri.1).natAbs % (q :: t).length) q ∈ (q :: t) := by
          have hidx : (rng.ri.1).natAbs % (q :: t).length < (q :: t).length :=
            Nat.mod_lt _ (Nat.succ_pos _)
          rw [List.getD_eq_getElem _ q hidx]
          exact List.getElem_mem hidx
        obtain ⟨nn, h2dp⟩ := hpool2 _ hprod
        split
        · exact ih _ _ _ hct hle
        · next qty it hstep =>
          obtain ⟨hitform, hitle⟩ := select_step_some_snacker hstep
          split
          · exact ih _ _ _ hct hle
          · split
            · next hstop =>
              rw [sumSubtotals_append]
              show V3.sumSubtotals acc + pyRound 2 it ≤ target_max
              rw [hitform, pyRound_two_fix h2dp qty, ← hitform, ← hct]
              exact hitle
            · next hgo =>
              push_neg at hgo
              refine ih _ _ _ ?_ (le_of_lt hgo)
              rw [sumSubtotals_append]
              show ct + it = V3.sumSubtotals acc + pyRound 2 it
              rw [hitform, pyRound_two_fix h2dp qty, ← hitform, ← hct]
    · show V3.sumSubtotals acc ≤ target_max
      rw [← hct]
      exact hle

theorem profiles_cfg_pos (profile : V3.Profile) :
    (V3.CUSTOMER_PROFILES profile).items_lo ≤ (V3.CUSTOMER_PROFILES profile).items_hi ∧
    (1 : Int) ≤ (V3.CUSTOMER_PROFILES profile).items_lo ∧
    0 < (V3.CUSTOMER_PROFILES profile).ticket_hi := by
  cases profile <;> refine ⟨by decide, by decide, ?_⟩ <;>
    · show (0 : Rat) < _
      with_unfolding_all decide

/-- C3 amended: for every profile, date on or after `START_DATE`, event
lists and oracle, the basket of `get_products_for_profile` has at most
`items_range`-max distinct products and, for the `SNACKER` profile, its
subtotal sum never exceeds the inflation-adjusted maximum ticket value
`ticket_hi * inflation`; for the other profiles the sum can exceed that
maximum (see the counterexample) but by strictly less than the largest
unit retail price of the selection pool. -/
theorem basket_size_and_budget_bound (profile : V3.Profile) (d : Date)
    (campaigns : List V3.BrandCampaign) (promos : List V3.StorePromo) (rng : RNG)
    (h : START_ORD ≤ d.ord) :
    (((V3.get_products_for_profile profile d campaigns promos rng).1.length : Int) ≤
      (V3.CUSTOMER_PROFILES profile).items_hi) ∧
    V3.sumSubtotals (V3.get_products_for_profile profile d campaigns promos rng).1 <
      (V3.CUSTOMER_PROFILES profile).ticket_hi * V3.get_inflation_factor d +
      V3.poolMaxRetail (V3.selection_pool profile d) ∧
    (profile = .SNACKER →
      V3.sumSubtotals (V3.get_products_for_profile profile d campaigns promos rng).1 ≤
        (V3.CUSTOMER_PROFILES profile).ticket_hi * V3.get_inflation_factor d) := by
  obtain ⟨hlohi, hlo1, htick⟩ := profiles_cfg_pos profile
  have hfac1 : 1 ≤ V3.get_inflation_factor d := one_le_inflation_factor h
  have htm0 : 0 < (V3.CUSTOMER_PROFILES profile).ticket_hi * V3.get_inflation_factor d := by
    nlinarith
  have hpool : ∀ p ∈ V3.selection_pool profile d, 0 < p.retail_price ∧
      p.retail_price ≤ V3.poolMaxRetail (V3.selection_pool profile d) ∧
      ∃ nn : Int, p.retail_price = (nn : Rat) / 10 ^ 2 := by
    intro p hp
    rcases selection_pool_from_catalog hp with ⟨prod, hmem, rfl⟩
    exact ⟨mkPoolItem_retail_pos h (catalog_base_retail_gt_one prod hmem),
      le_poolMaxRetail hp, mkPoolItem_retail_2dp d prod⟩
  refine ⟨?_, ?_, ?_⟩
  · show ((V3.select_loop profile d campaigns promos _ _ _ _ [] 0 _).1.length : Int) ≤ _
    refine le_trans (select_loop_length profile d campaigns promos _ _ _ _ [] 0 _) ?_
    have hni : randint (V3.CUSTOMER_PROFILES profile).items_lo
        (V3.CUSTOMER_PROFILES profile).items_hi rng.ri.1 ≤
        (V3.CUSTOMER_PROFILES profile).items_hi := randint_le _ hlohi
    have hni1 : (1 : Int) ≤ randint (V3.CUSTOMER_PROFILES profile).items_lo
        (V3.CUSTOMER_PROFILES profile).items_hi rng.ri.1 :=
      le_trans hlo1 (le_randint _ hlohi)
    apply max_le
    · simp only [List.length_nil, Int.natCast_zero]
      omega
    · exact hni
  · show V3.sumSubtotals (V3.select_loop profile d campaigns promos _ _ _ _ [] 0 _).1 < _
    exact select_loop_budget profile d campaigns promos _ _ _ _
      (poolMaxRetail_pos h) hpool _ [] 0 _ rfl htm0
  · intro hsn
    subst hsn
    show V3.sumSubtotals (V3.select_loop _ d campaigns promos _ _ _ _ [] 0 _).1 ≤ _
    exact select_loop_budget_snacker d campaigns promos _ _ _
      (fun p hp => (hpool p hp).2.2) _ [] 0 _ rfl (le_of_lt htm0)

theorem basket_size_and_budget_bound_witness :
    START_ORD ≤ START_DATE.ord ∧
    ((V3.get_products_for_profile .SNACKER START_DATE [] [] ⟨[], []⟩).1.length : Int) ≤
      (V3.CUSTOMER_PROFILES .SNACKER).items_hi :=
  ⟨le_refl _,
   (basket_size_and_budget_bound .SNACKER START_DATE [] [] ⟨[], []⟩ (le_refl _)).1⟩

end MiniMart
namespace MiniMart

theorem tx_loop_totals (d : Date) (campaigns : List V3.BrandCampaign)
    (promos : List V3.StorePromo) :
    ∀ (fuel counter : Nat) (rng : RNG),
      ∀ tx ∈ (V3.tx_loop d campaigns promos fuel counter rng).1,
        tx.total_amount = V3.sumSubtotals tx.items ∧
        tx.total_cost = V3.sumCostTotals tx.items := by
  intro fuel
  induction fuel with
  | zero =>
    intro counter rng tx htx
    cases htx
  | succ n ih =>
    intro counter rng tx htx
    simp only [V3.tx_loop] at htx
    split at htx
    · exact ih _ _ _ htx
    · rcases List.mem_cons.mp htx with rfl | hrest
      · exact ⟨rfl, rfl⟩
      · exact ih _ _ _ hrest

/-- C6: for every generated transaction, the transaction total computed
during generation equals the sum of the subtotals of its line items, and
the transaction cost equals the sum of the per-item cost totals. -/
theorem transaction_totals_consistent (d : Date) (campaigns : List V3.BrandCampaign)
    (promos : List V3.StorePromo) (holidays : List V3.Holiday) (rng : RNG) :
    ((V3.generate_daily_transactions d campaigns promos holidays rng).1).all
      (fun tx => decide (tx.total_amount = V3.sumSubtotals tx.items) &&
                 decide (tx.total_cost = V3.sumCostTotals tx.items)) = true := by
  apply List.all_eq_true.mpr
  intro tx htx
  obtain ⟨h1, h2⟩ := tx_loop_totals d campaigns promos _ _ _ tx htx
  simp [h1, h2]

end MiniMart
namespace MiniMart

theorem priced_never_sell_false {d : Date} {x : V3.PoolItem}
    (hx : x ∈ V3.priced_products d) : x.never_sell = false := by
  unfold V3.priced_products at hx
  rcases List.mem_map.mp hx with ⟨prod, hmem, rfl⟩
  have h := (List.mem_filter.mp hmem).2
  show prod.never_sell = false
  simpa using h

theorem selection_pool_never_sell_false {profile : V3.Profile} {d : Date}
    {x : V3.PoolItem} (hx : x ∈ V3.selection_pool profile d) :
    x.never_sell = false := by
  unfold V3.selection_pool at hx
  rcases List.mem_append.mp hx with hb | hh
  · apply priced_never_sell_false (d := d)
    cases profile
    · simp only at hb
      split at hb
      · rcases List.mem_append.mp hb with h4 | hm
        · exact product_pool_sub (cheap_sub (listMul_subset h4))
        · exact product_pool_sub (mid_sub hm)
      · exact product_pool_sub (weighted_pool_sub hb)
    · simp only at hb
      rcases List.mem_append.mp hb with hcm | he
      · rcases List.mem_append.mp hcm with hc | hm
        · exact product_pool_sub (cheap_sub (listMul_subset hc))
        · exact product_pool_sub (mid_sub (listMul_subset hm))
      · exact product_pool_sub (expensive_sub he)
    · simp only at hb
      rcases List.mem_append.mp hb with hw | hwh
      · exact product_pool_sub (weighted_pool_sub hw)
      · exact wholesale_pool_sub (listMul_subset hwh)
  · exact priced_never_sell_false (product_pool_sub (hero_extra_sub hh))

theorem catalog_barcode_determines_never_sell :
    ∀ p ∈ V3.PRODUCTS, ∀ q ∈ V3.PRODUCTS, p.barcode = q.barcode →
      p.never_sell = q.never_sell := by
  with_unfolding_all decide

theorem basket_item_catalog_spec {profile : V3.Profile} {d : Date}
    {campaigns : List V3.BrandCampaign} {promos : List V3.StorePromo} {rng : RNG}
    {b : V3.BasketItem}
    (hb : b ∈ (V3.get_products_for_profile profile d campaigns promos rng).1) :
    ∃ prod ∈ V3.PRODUCTS, prod.never_sell = false ∧ b.barcode = prod.barcode := by
  have hmem : b ∈ ([] : List V3.BasketItem) ∨ b.toPoolItem ∈ V3.selection_pool profile d :=
    select_loop_from_pool profile d campaigns promos _ _ _ _ [] 0 _ b hb
  rcases hmem with h | h
  · cases h
  · rcases selection_pool_from_catalog h with ⟨prod, hm, heq⟩
    have hns : prod.never_sell = false := by
      have := selection_pool_never_sell_false h
      rw [heq] at this
      exact this
    refine ⟨prod, hm, hns, ?_⟩
    show b.toPoolItem.barcode = prod.barcode
    rw [heq]
    rfl

theorem tx_items_catalog_spec (d : Date) (campaigns : List V3.BrandCampaign)
    (promos : List V3.StorePromo) :
    ∀ (fuel counter : Nat) (rng : RNG),
      ∀ tx ∈ (V3.tx_loop d campaigns promos fuel counter rng).1,
        ∀ b ∈ tx.items,
          ∃ prod ∈ V3.PRODUCTS, prod.never_sell = false ∧ b.barcode = prod.barcode := by
  intro fuel
  induction fuel with
  | zero =>
    intro counter rng tx htx
    cases htx
  | succ n ih =>
    intro counter rng tx htx
    simp only [V3.tx_loop] at htx
    split at htx
    · exact ih _ _ _ htx
    · rcases List.mem_cons.mp htx with rfl | hrest
      · intro b hb
        exact basket_item_catalog_spec hb
      · exact ih _ _ _ hrest

/-- C4: for every date, event lists and oracle (that is, for every
outcome of the random choices), no line item produced by
`generate_daily_transactions` refers to a product whose catalog entry is
flagged `never_sell`: such products are dropped from the selection
pools, and the one `never_sell` barcode belongs to no other catalog
entry. -/
theorem never_sell_excluded (d : Date) (campaigns : List V3.BrandCampaign)
    (promos : List V3.StorePromo) (holidays : List V3.Holiday) (rng : RNG) :
    (V3.daily_line_items d campaigns promos holidays rng).all
      (fun li => V3.PRODUCTS.all
        (fun p => decide (p.barcode = li.barcode → p.never_sell = false))) = true := by
  apply List.all_eq_true.mpr
  intro li hli
  apply List.all_eq_true.mpr
  intro p hp
  apply decide_eq_true
  intro hbar
  unfold V3.daily_line_items at hli
  rcases List.mem_flatMap.mp hli with ⟨tx, htx, hli2⟩
  unfold V3.tx_line_items at hli2
  rcases List.mem_map.mp hli2 with ⟨item, hitem, rfl⟩
  obtain ⟨prod, hm, hns, hbar2⟩ :=
    tx_items_catalog_spec d campaigns promos _ _ _ tx htx item hitem
  have hb3 : p.barcode = prod.barcode := by
    rw [hbar]
    exact hbar2
  rw [catalog_barcode_determines_never_sell p hp prod hm hb3]
  exact hns

end MiniMart
namespace MiniMart

theorem tx_loop_counter_ge (d : Date) (campaigns : List V3.BrandCampaign)
    (promos : List V3.StorePromo) :
    ∀ (fuel counter : Nat) (rng : RNG),
      ∀ tx ∈ (V3.tx_loop d campaigns promos fuel counter rng).1, counter ≤ tx.counter := by
  intro fuel
  induction fuel with
  | zero =>
    intro counter rng tx htx
    cases htx
  | succ n ih =>
    intro counter rng tx htx
    simp only [V3.tx_loop] at htx
    split at htx
    · exact le_trans (Nat.le_succ _) (ih _ _ _ htx)
    · rcases List.mem_cons.mp htx with rfl | hrest
      · exact le_refl _
      · exact le_trans (Nat.le_succ _) (ih _ _ _ hrest)

theorem tx_loop_counters_increasing (d : Date) (campaigns : List V3.BrandCampaign)
    (promos : List V3.StorePromo) :
    ∀ (fuel counter : Nat) (rng : RNG),
      ((V3.tx_loop d campaigns promos fuel counter rng).1).Pairwise
        (fun a b => a.counter < b.counter) := by
  intro fuel
  induction fuel with
  | zero =>
    intro counter rng
    exact List.Pairwise.nil
  | succ n ih =>
    intro counter rng
    simp only [V3.tx_loop]
    split
    · exact ih _ _
    · refine List.pairwise_cons.mpr ⟨?_, ih _ _⟩
      intro b hb
      have := tx_loop_counter_ge d campaigns promos _ _ _ b hb
      show counter < b.counter
      omega

theorem run_transactions_keys (campaigns : List V3.BrandCampaign)
    (promos : List V3.StorePromo) (holidays : List V3.Holiday) :
    ∀ (dates : List Date) (rng : RNG) (x : Nat × V3.Tx),
      x ∈ V3.run_transactions dates campaigns promos holidays rng →
      ∃ d ∈ dates, x.1 = dayKey d := by
  intro dates
  induction dates with
  | nil =>
    intro rng x hx
    cases hx
  | cons d rest ih =>
    intro rng x hx
    simp only [V3.run_transactions] at hx
    rcases List.mem_append.mp hx with h | h
    · rcases List.mem_map.mp h with ⟨t, -, rfl⟩
      exact ⟨d, List.mem_cons_self _ _, rfl⟩
    · rcases ih _ _ h with ⟨d2, hd2, hk⟩
      exact ⟨d2, List.mem_cons_of_mem _ hd2, hk⟩

theorem dayKey_inj {a b : Date}
    (hm1 : a.month ≤ 12) (hd1 : a.day ≤ 31) (hm2 : b.month ≤ 12) (hd2 : b.day ≤ 31)
    (h : dayKey a = dayKey b) :
    a.year = b.year ∧ a.month = b.month ∧ a.day = b.day := by
  unfold dayKey at h
  omega

theorem run_transactions_pairwise (campaigns : List V3.BrandCampaign)
    (promos : List V3.StorePromo) (holidays : List V3.Holiday) :
    ∀ (dates : List Date),
      (∀ d ∈ dates, d.month ≤ 12 ∧ d.day ≤ 31) →
      dates.Pairwise (fun a b => ¬(a.year = b.year ∧ a.month = b.month ∧ a.day = b.day)) →
      ∀ rng : RNG,
        (V3.run_transactions dates campaigns promos holidays rng).Pairwise
          (fun a b => ¬(a.1 = b.1 ∧ a.2.counter = b.2.counter)) := by
  intro dates
  induction dates with
  | nil =>
    intro _ _ rng
    exact List.Pairwise.nil
  | cons d rest ih =>
    intro hvalid hdist rng
    simp only [V3.run_transactions]
    apply List.pairwise_append.mpr
    refine ⟨?_, ?_, ?_⟩
    · refine List.Pairwise.map _ ?_
        (tx_loop_counters_increasing d campaigns promos _ 1 _)
      intro a b hab
      dsimp only
      rintro ⟨-, hc⟩
      omega
    · exact ih (fun x hx => hvalid x (List.mem_cons_of_mem _ hx))
        (List.pairwise_cons.mp hdist).2 _
    · intro a ha b hb
      rcases List.mem_map.mp ha with ⟨t, -, rfl⟩
      rcases run_transactions_keys campaigns promos holidays rest _ b hb with ⟨d2, hd2, hk2⟩
      rintro ⟨hkey, -⟩
      have hne := (List.pairwise_cons.mp hdist).1 d2 hd2
      have h1 := hvalid d (List.mem_cons_self _ _)
      have h2 := hvalid d2 (List.mem_cons_of_mem _ hd2)
      exact hne (dayKey_inj h1.1 h1.2 h2.1 h2.2 (by
        have : dayKey d = b.1 := hkey
        rw [this, hk2]))

/-- C10: over a run touching pairwise-distinct valid calendar dates, the
`(day, counter)` data rendered into the `transaction_id` strings
(`f"TX-{date:%Y%m%d}-{counter:04d}"`, a fixed-width rendering injective
in that data) is pairwise distinct: within a day the counter strictly
increases, and different days render different date keys; and every
line item belonging to one transaction carries that transaction's id
data, date, time, customer type and payment method. -/
theorem run_transaction_ids_distinct (dates : List Date)
    (campaigns : List V3.BrandCampaign) (promos : List V3.StorePromo)
    (holidays : List V3.Holiday) (rng : RNG)
    (hvalid : ∀ d ∈ dates, d.month ≤ 12 ∧ d.day ≤ 31)
    (hdistinct : dates.Pairwise
      (fun a b => ¬(a.year = b.year ∧ a.month = b.month ∧ a.day = b.day))) :
    (V3.run_transactions dates campaigns promos holidays rng).Pairwise
      (fun a b => ¬(a.1 = b.1 ∧ a.2.counter = b.2.counter)) ∧
    (∀ (d : Date) (rng2 : RNG),
      ((V3.generate_daily_transactions d campaigns promos holidays rng2).1).Pairwise
        (fun a b => a.counter < b.counter)) ∧
    (∀ (d : Date) (tx : V3.Tx),
      (V3.tx_line_items d campaigns promos holidays tx).all (fun li =>
        decide (li.txn_day = dayKey d ∧ li.txn_counter = tx.counter ∧ li.date = d ∧
          li.hour = tx.hour ∧ li.minute = tx.minute ∧ li.second = tx.second ∧
          li.customer_type = tx.profile ∧ li.payment_method = tx.payment)) = true) := by
  refine ⟨run_transactions_pairwise campaigns promos holidays dates hvalid hdistinct rng,
    fun d rng2 => tx_loop_counters_increasing d campaigns promos _ 1 _, ?_⟩
  intro d tx
  apply List.all_eq_true.mpr
  intro li hli
  unfold V3.tx_line_items at hli
  rcases List.mem_map.mp hli with ⟨item, -, rfl⟩
  apply decide_eq_true
  exact ⟨rfl, rfl, rfl, rfl, rfl, rfl, rfl, rfl⟩

theorem run_transaction_ids_distinct_witness :
    ((∀ d ∈ [START_DATE, nextDay START_DATE], d.month ≤ 12 ∧ d.day ≤ 31) ∧
      ([START_DATE, nextDay START_DATE] : List Date).Pairwise
        (fun a b => ¬(a.year = b.year ∧ a.month = b.month ∧ a.day = b.day))) ∧
    (V3.run_transactions [START_DATE, nextDay START_DATE] [] [] [] ⟨[], []⟩).Pairwise
      (fun a b => ¬(a.1 = b.1 ∧ a.2.counter = b.2.counter)) :=
  ⟨⟨by decide, by decide⟩,
   (run_transaction_ids_distinct [START_DATE, nextDay START_DATE] [] [] [] ⟨[], []⟩
     (by decide) (by decide)).1⟩

end MiniMart
namespace MiniMart

theorem one_le_base_batch_qty (p : Suppliers.SProduct) (d : Date) (rng : RNG) :
    1 ≤ (Suppliers.base_batch_qty p d rng).1 := by
  have hb0 : (10 : Int) ≤ randint 10 200 rng.ri.1 := le_randint _ (by omega)
  have hb3 : (5 : Int) ≤ randint 5 30 rng.ri.2.ri.1 := le_randint _ (by omega)
  have hc : (10 : Rat) ≤ ((randint 10 200 rng.ri.1 : Int) : Rat) := by
    exact_mod_cast hb0
  have h15 : (1.5 : Rat) = 3 / 2 := by norm_num
  have h18 : (1.8 : Rat) = 9 / 5 := by norm_num
  have h13 : (1.3 : Rat) = 13 / 10 := by norm_num
  simp only [Suppliers.base_batch_qty]
  have h5 : (5 : Int) ≤
      (if p.category ∈ (["SODA", "SNACK", "INSTANT_NOODLES"] : List String) then
        pytrunc ((randint 10 200 rng.ri.1 : Int) * (1.5 : Rat))
      else if p.category = "SOFTDRINKS_CASE" then randint 5 30 rng.ri.2.ri.1
      else randint 10 200 rng.ri.1) := by
    split
    · refine le_pytrunc ?_ ?_
      · rw [h15]
        linarith
      · rw [h15]
        push_cast
        linarith
    · split
      · exact hb3
      · omega
  generalize hq : (if p.category ∈ (["SODA", "SNACK", "INSTANT_NOODLES"] : List String) then
        pytrunc ((randint 10 200 rng.ri.1 : Int) * (1.5 : Rat))
      else if p.category = "SOFTDRINKS_CASE" then randint 5 30 rng.ri.2.ri.1
      else randint 10 200 rng.ri.1) = bq1 at h5 ⊢
  have h5c : (5 : Rat) ≤ ((bq1 : Int) : Rat) := by exact_mod_cast h5
  split
  · refine le_pytrunc ?_ ?_
    · rw [h18]
      push_cast at h5c ⊢
      linarith
    · rw [h18]
      push_cast at h5c ⊢
      linarith
  · split
    · refine le_pytrunc ?_ ?_
      · rw [h13]
        push_cast at h5c ⊢
        linarith
      · rw [h13]
        push_cast at h5c ⊢
        linarith
    · omega

end MiniMart
namespace MiniMart

theorem make_return_spec {endOrd : Int} {d : Date} {return_id batch_id : Int}
    {p : Suppliers.SProduct} {supplier : Suppliers.Supplier} {cost_price : Rat}
    {bq2 expiry_days : Int} {rng : RNG} {r : Suppliers.StockMovementReturn}
    (hbq : 1 ≤ bq2)
    (h : (Suppliers.make_return endOrd d return_id batch_id p supplier cost_price
      bq2 expiry_days rng).1 = some r) :
    r.batch_id = batch_id ∧ r.product_barcode = p.barcode ∧ r.product_name = p.name ∧
    r.supplier_id = supplier.id ∧ r.supplier_name = supplier.name ∧
    r.cost_price = cost_price ∧ r.quantity_change < 0 ∧ 1 ≤ -r.quantity_change ∧
    -r.quantity_change ≤ bq2 ∧ d.ord + 30 ≤ r.created_ord ∧ r.created_ord ≤ endOrd := by
  simp only [Suppliers.make_return] at h
  generalize hmd : (if min (expiry_days - 5) 180 < 30 then (30 : Int)
    else min (expiry_days - 5) 180) = md at h
  have h30 : (30 : Int) ≤ md := by
    rw [← hmd]
    split <;> omega
  split at h
  · split at h
    · next hguard =>
      have hlit := Option.some.inj h
      subst hlit
      refine ⟨rfl, rfl, rfl, rfl, rfl, rfl, ?_, ?_, ?_, ?_, hguard⟩
      · show -max 1 (pytrunc ((bq2 : Rat) * uniformR 0.1 0.5 rng.rq.2.ri.2.rq.1)) < 0
        have := le_max_left 1 (pytrunc ((bq2 : Rat) * uniformR 0.1 0.5 rng.rq.2.ri.2.rq.1))
        omega
      · show 1 ≤ - -max 1 (pytrunc ((bq2 : Rat) * uniformR 0.1 0.5 rng.rq.2.ri.2.rq.1))
        have := le_max_left 1 (pytrunc ((bq2 : Rat) * uniformR 0.1 0.5 rng.rq.2.ri.2.rq.1))
        omega
      · show - -max 1 (pytrunc ((bq2 : Rat) * uniformR 0.1 0.5 rng.rq.2.ri.2.rq.1)) ≤ bq2
        have hu2 : uniformR 0.1 0.5 rng.rq.2.ri.2.rq.1 ≤ 0.5 :=
          uniformR_le _ (by norm_num)
        have hu1 : (0.1 : Rat) ≤ uniformR 0.1 0.5 rng.rq.2.ri.2.rq.1 := le_uniformR _ _ _
        have hbqc : (1 : Rat) ≤ ((bq2 : Int) : Rat) := by exact_mod_cast hbq
        have h01 : (0.1 : Rat) = 1 / 10 := by norm_num
        have h05 : (0.5 : Rat) = 1 / 2 := by norm_num
        have h0 : (0 : Rat) ≤ (bq2 : Rat) * uniformR 0.1 0.5 rng.rq.2.ri.2.rq.1 := by
          apply mul_nonneg (by linarith)
          rw [h01] at hu1
          linarith
        have hle : (bq2 : Rat) * uniformR 0.1 0.5 rng.rq.2.ri.2.rq.1 ≤ ((bq2 : Int) : Rat) := by
          rw [h05] at hu2
          rw [h01] at hu1
          nlinarith
        have ht := pytrunc_le_of_le h0 hle
        have := le_max_left 1 (pytrunc ((bq2 : Rat) * uniformR 0.1 0.5 rng.rq.2.ri.2.rq.1))
        omega
      · show d.ord + 30 ≤ d.ord + randint 30 md rng.rq.2.ri.1
        have := le_randint (a := 30) (b := md) rng.rq.2.ri.1 h30
        omega
    · exact Option.noConfusion h
  · exact Option.noConfusion h

end MiniMart
namespace MiniMart

theorem restock_product_inv {suppliers : List Suppliers.Supplier} {endOrd : Int}
    {d : Date} {st : Suppliers.GenSt} {rng : RNG} {p : Suppliers.SProduct}
    (hinv : Suppliers.SupInv endOrd st) :
    Suppliers.SupInv endOrd (Suppliers.restock_product suppliers endOrd d st rng p).1 := by
  unfold Suppliers.restock_product
  split
  · exact hinv
  · intro r hr
    simp only at hr ⊢
    split at hr
    · next r0 heq =>
      rcases List.mem_append.mp hr with hold | hnew
      · rcases hinv r hold with ⟨b, hb, hrel⟩
        exact ⟨b, List.mem_append_left _ hb, hrel⟩
      · rcases List.mem_cons.mp hnew with rfl | hnil
        · refine ⟨_, List.mem_append_right _ (List.mem_cons_self _ _), ?_⟩
          obtain ⟨h1, h2, h3, h4, h5, h6, h7, h8, h9, h10, h11⟩ :=
            make_return_spec (one_le_base_batch_qty p d rng.ri.2) heq
          exact ⟨h1.symm, h2.symm, h3.symm, h4.symm, h5.symm, h6.symm,
            h7, h8, h9, h10, h11⟩
        · cases hnil
    · rcases hinv r hr with ⟨b, hb, hrel⟩
      exact ⟨b, List.mem_append_left _ hb, hrel⟩

end MiniMart
namespace MiniMart

theorem restock_fold_inv (suppliers : List Suppliers.Supplier) (endOrd : Int) (d : Date) :
    ∀ (l : List Suppliers.SProduct) (sr : Suppliers.GenSt × RNG),
      Suppliers.SupInv endOrd sr.1 →
      Suppliers.SupInv endOrd
        (l.foldl (fun sr p => Suppliers.restock_product suppliers endOrd d sr.1 sr.2 p) sr).1 := by
  intro l
  induction l with
  | nil =>
    intro sr h
    exact h
  | cons p rest ih =>
    intro sr h
    rw [List.foldl_cons]
    exact ih _ (restock_product_inv h)

theorem day_loop_inv (suppliers : List Suppliers.Supplier) (endOrd : Int) :
    ∀ (fuel : Nat) (d : Date) (st : Suppliers.GenSt) (rng : RNG),
      Suppliers.SupInv endOrd st →
      Suppliers.SupInv endOrd (Suppliers.day_loop suppliers endOrd fuel d st rng).1 := by
  intro fuel
  induction fuel with
  | zero =>
    intro d st rng h
    exact h
  | succ n ih =>
    intro d st rng h
    simp only [Suppliers.day_loop]
    split
    · exact h
    · exact ih _ _ _ (restock_fold_inv suppliers endOrd d Suppliers.PRODUCTS (st, rng) h)

/-- C9: every `StockMovementReturn` produced by
`generate_batches_and_returns` references the `InventoryBatch` created
in the same iteration: same batch id, product barcode and name, supplier
id and name, and cost price; its `quantity_change` is strictly negative
with magnitude at least 1 and at most the batch's quantity; and its
`created_at` lies at least 30 days after the batch's `received_date` and
no later than `END_DATE`. -/
theorem returns_reference_same_batch (suppliers : List Suppliers.Supplier)
    (endOrd : Int) (rng : RNG) :
    ((Suppliers.generate_batches_and_returns suppliers endOrd rng).2).all (fun r =>
      ((Suppliers.generate_batches_and_returns suppliers endOrd rng).1).any (fun b =>
        decide (Suppliers.returnMatches endOrd b r))) = true := by
  apply List.all_eq_true.mpr
  intro r hr
  have h0 : Suppliers.SupInv endOrd
      (⟨1, 1, (Suppliers.init_restock Suppliers.PRODUCTS (fun _ => START_ORD) rng).1,
        [], []⟩ : Suppliers.GenSt) := by
    intro x hx
    cases hx
  have hinv := day_loop_inv suppliers endOrd ((endOrd - START_ORD + 1).toNat) START_DATE
    _ ((Suppliers.init_restock Suppliers.PRODUCTS (fun _ => START_ORD) rng).2) h0
  obtain ⟨b, hb, hrel⟩ := hinv r hr
  apply List.any_eq_true.mpr
  exact ⟨b, hb, decide_eq_true hrel⟩

end MiniMart
